import Mathlib

/-
Verification development for the whatsapp_integration backend
(healthcare sales orchestration: CRM webhook ingestion, voice-callback
ingestion, event log, job orchestration).

The definitions below are a shallow embedding of the Python source:
  * app/models/{event,lead,message,call,appointment,log}.py
  * app/api/v1/helena.py      (CRM webhook pipeline)
  * app/api/v1/callbacks.py   (voice-callback pipeline)
  * app/jobs/scheduler.py     (orchestrator and job functions)
Conventions of the embedding:
  * timestamps are Int seconds (datetime arithmetic is unbounded);
  * entity ids are Nat, allocated from a per-database counter
    (the source uses uuid4 strings; only freshness matters);
  * Python dicts used as string maps become association lists;
  * `datetime.utcnow()` becomes an explicit `now` parameter;
  * fallible code (Python raise) returns Except;
  * the Redis queues become lists of job records inside the state.
-/

/-! ## Enumerations (app/models) -/

inductive EventType where
  | lead_created | lead_updated | lead_stage_changed | lead_tag_added | lead_tag_removed
  | message_received | message_sent | message_delivered | message_read | message_failed
  | call_initiated | call_answered | call_completed | call_failed
  | appointment_booked | appointment_confirmed | appointment_reminded
  | appointment_completed | appointment_no_show | appointment_cancelled
  | hot_lead_detected | handoff_triggered | reactivation_triggered
  | job_started | job_completed | job_failed | webhook_received | api_call_made
  deriving DecidableEq, Repr

inductive EventStatus where
  | pending | processing | completed | failed | skipped
  deriving DecidableEq, Repr

inductive LeadStage where
  | new | contacted | qualified | booked | confirmed | showed | no_show | converted | lost
  deriving DecidableEq, Repr

inductive LeadSource where
  | organic | paid_ads | social_media | referral | direct | other
  deriving DecidableEq, Repr

inductive LeadClassification where
  | hot | warm | cold
  deriving DecidableEq, Repr

inductive MessageDirection where
  | inbound | outbound
  deriving DecidableEq, Repr

inductive MessageStatus where
  | queued | sent | delivered | read | failed
  deriving DecidableEq, Repr

inductive MessageChannel where
  | whatsapp | sms | email | voice
  deriving DecidableEq, Repr

inductive CallStatus where
  | queued | initiated | ringing | answered | completed | failed | busy | no_answer | cancelled
  deriving DecidableEq, Repr

inductive CallDirection where
  | inbound | outbound
  deriving DecidableEq, Repr

inductive CallOutcome where
  | successful | no_answer | busy | voicemail | wrong_number | interested
  | not_interested | callback_requested | appointment_booked | technical_issue
  deriving DecidableEq, Repr

inductive AppointmentStatus where
  | scheduled | confirmed | reminded | completed | no_show | cancelled | rescheduled
  deriving DecidableEq, Repr

inductive LogLevel where
  | debug | info | warning | error | critical
  deriving DecidableEq, Repr

inductive LogCategory where
  | webhook | api_call | job | system | security | business | integration
  deriving DecidableEq, Repr

/-! ## Python-truthiness helpers -/

/-- Python truthiness of an `Optional[str]`: `None` and `""` are falsy. -/
def pyTruthyStr (o : Option String) : Bool :=
  match o with
  | none => false
  | some s => !(s == "")

/-- Python truthiness of an `Optional[dict]`: `None` and `{}` are falsy. -/
def pyTruthyDict (o : Option (List (String × String))) : Bool :=
  match o with
  | none => false
  | some l => !l.isEmpty

/-- Python truthiness of an `Optional[list]`: `None` and `[]` are falsy. -/
def pyTruthyList (o : Option (List String)) : Bool :=
  match o with
  | none => false
  | some l => !l.isEmpty

/-- Python `str(x)` of an `Optional` value inside an f-string: `None` prints as "None". -/
def pyStrOpt (o : Option String) : String :=
  match o with
  | none => "None"
  | some s => s

/-- Python dict.update on an association-list model of a string dict:
entries of `new` override entries of `old` with the same key. -/
def dictUpdate (old new : List (String × String)) : List (String × String) :=
  old.filter (fun kv => (new.find? (fun kv2 => kv2.1 == kv.1)).isNone) ++ new

/-- Python substring containment `needle in hay`. -/
def strContains (hay needle : String) : Bool :=
  (List.range (hay.data.length + 1)).any (fun i => needle.data.isPrefixOf (hay.data.drop i))

/-! ## Triggered actions (Event.triggers_actions entries) -/

/-- The `data` dict of a triggered action.  The source stores a string-keyed
dict; the keys actually used are lead_id / appointment_id / call_id /
message_id / classification, and `dict.get` on a missing key yields None. -/
structure ActionData where
  lead_id : Option Nat := none
  appointment_id : Option Nat := none
  call_id : Option Nat := none
  message_id : Option Nat := none
  classification : Option String := none
  deriving DecidableEq, Repr

/-- One entry of `Event.triggers_actions`: {"type": ..., "data": ..., "added_at": ...}. -/
structure TriggeredAction where
  type : String
  data : ActionData := {}
  added_at : Int
  deriving DecidableEq, Repr

/-! ## Helena webhook payload envelopes (app/api/v1/helena.py pydantic models) -/

/-- HelenaLeadData (pydantic): tags and custom_fields use default_factory, so an
absent field parses to an empty collection, while an explicit null parses to None. -/
structure HelenaLeadData where
  helena_id : String
  first_name : String
  last_name : Option String := none
  email : Option String := none
  phone : String
  stage : Option String := none
  source : Option String := none
  tags : Option (List String) := some []
  custom_fields : Option (List (String × String)) := some []
  notes : Option String := none
  assigned_agent_id : Option String := none
  deriving DecidableEq, Repr

structure HelenaMessageData where
  helena_message_id : String
  helena_lead_id : String
  content : String
  direction : String
  channel : String := "whatsapp"
  status : Option String := some "sent"
  timestamp : Option Int := none
  deriving DecidableEq, Repr

/-- The `data` dict of a Helena webhook: either it parses as HelenaLeadData, or
as HelenaMessageData, or the per-handler pydantic parse raises (ValueError). -/
inductive HelenaData where
  | leadData (d : HelenaLeadData)
  | messageData (d : HelenaMessageData)
  | malformed
  deriving DecidableEq, Repr

/-! ## Event model (app/models/event.py) -/

/-- The payloads stored in `Event.payload` by the two ingestion pipelines. -/
inductive EvPayload where
  /-- a Helena webhook's `data` dict (opaque to the orchestrator) -/
  | helena (d : HelenaData)
  /-- the dict built by vapi_callback: call_id, vapi_call_id, status, duration, outcome -/
  | callInfo (call_id : Nat) (vapi_call_id : String) (status : String)
      (duration : Option Int) (outcome : Option CallOutcome)
  | opaque_ (tag : String)
  deriving DecidableEq, Repr

structure Event where
  id : Nat
  event_type : EventType
  status : EventStatus := .pending
  source : String
  payload : EvPayload
  event_metadata : List (String × String) := []
  lead_id : Option Nat := none
  appointment_id : Option Nat := none
  call_id : Option Nat := none
  message_id : Option Nat := none
  processed_at : Option Int := none
  failed_at : Option Int := none
  retry_count : Nat := 0
  error_message : Option String := none
  triggers_actions : List TriggeredAction := []
  correlation_id : Option String := none
  idempotency_key : Option String := none
  occurred_at : Int
  created_at : Int
  updated_at : Int
  deriving DecidableEq, Repr

def Event.mark_processing (e : Event) (now : Int) : Event :=
  { e with status := .processing, updated_at := now }

def Event.mark_completed (e : Event) (now : Int) : Event :=
  { e with status := .completed, processed_at := some now, updated_at := now }

def Event.mark_failed (e : Event) (error_message : String) (now : Int) : Event :=
  { e with status := .failed, failed_at := some now, error_message := some error_message,
           retry_count := e.retry_count + 1, updated_at := now }

def Event.mark_skipped (e : Event) (reason : Option String) (now : Int) : Event :=
  { e with status := .skipped, processed_at := some now,
           event_metadata :=
             match reason with
             | some r => dictUpdate e.event_metadata [("skip_reason", r)]
             | none => e.event_metadata,
           updated_at := now }

def Event.should_retry (e : Event) (max_retries : Nat := 3) : Bool :=
  e.status == .failed && e.retry_count < max_retries

def Event.add_triggered_action (e : Event) (action_type : String)
    (action_data : ActionData) (now : Int) : Event :=
  { e with triggers_actions :=
      e.triggers_actions ++ [{ type := action_type, data := action_data, added_at := now }] }

/-- Event.create_from_webhook (status and counters take the column defaults). -/
def Event.create_from_webhook (id : Nat) (event_type : EventType) (source : String)
    (payload : EvPayload) (lead_id : Option Nat) (idempotency_key : Option String)
    (occurred_at : Option Int) (now : Int) : Event :=
  { id := id, event_type := event_type, source := source, payload := payload,
    lead_id := lead_id, idempotency_key := idempotency_key,
    occurred_at := occurred_at.getD now, created_at := now, updated_at := now }

/-- Event.create_lead_event: note that no idempotency_key is supplied, so the
column stays NULL. -/
def Event.create_lead_event (id : Nat) (event_type : EventType) (lead_id : Option Nat)
    (payload : EvPayload) (source : String := "system")
    (correlation_id : Option String := none) (now : Int) : Event :=
  { id := id, event_type := event_type, source := source, payload := payload,
    lead_id := lead_id, correlation_id := correlation_id,
    occurred_at := now, created_at := now, updated_at := now }

/-! ## Event state-machine traces (for the completed-implies-processed invariant) -/

/-- One application of a transition method of the Event model. -/
inductive EOp where
  | processing (now : Int)
  | completed (now : Int)
  | failed (error_message : String) (now : Int)
  | skipped (reason : Option String) (now : Int)
  deriving DecidableEq, Repr

def applyOp (e : Event) : EOp → Event
  | .processing now => e.mark_processing now
  | .completed now => e.mark_completed now
  | .failed msg now => e.mark_failed msg now
  | .skipped r now => e.mark_skipped r now

def applyOps (e : Event) (ops : List EOp) : Event :=
  ops.foldl applyOp e

def EOp.isFailedOp : EOp → Bool
  | .failed _ _ => true
  | _ => false

/-- Number of mark_failed transitions in a trace. -/
def countFailed (ops : List EOp) : Nat :=
  (ops.filter EOp.isFailedOp).length

/-! ## Lead model (app/models/lead.py) -/

structure Lead where
  id : Nat
  helena_id : String
  first_name : String
  last_name : Option String := none
  email : Option String := none
  phone : String
  stage : LeadStage := .new
  classification : LeadClassification := .warm
  source : LeadSource := .other
  tags : List String := []
  custom_fields : List (String × String) := []
  notes : Option String := none
  is_active : Bool := true
  assigned_agent_id : Option String := none
  created_at : Int
  updated_at : Int
  last_contacted_at : Option Int := none
  qualified_at : Option Int := none
  deriving DecidableEq, Repr

def Lead.has_tag (l : Lead) (tag : String) : Bool :=
  l.tags.contains tag

def Lead.add_tag (l : Lead) (tag : String) : Lead :=
  if l.tags.contains tag then l else { l with tags := l.tags ++ [tag] }

def Lead.remove_tag (l : Lead) (tag : String) : Lead :=
  { l with tags := l.tags.erase tag }

def Lead.update_stage (l : Lead) (new_stage : LeadStage) (now : Int) : Lead :=
  let l := { l with stage := new_stage }
  if new_stage = .contacted ∧ l.last_contacted_at.isNone then
    { l with last_contacted_at := some now }
  else if new_stage = .qualified ∧ l.qualified_at.isNone then
    { l with qualified_at := some now }
  else l

def Lead.is_hot_lead (l : Lead) : Bool :=
  l.classification == .hot || l.has_tag "urgent" || l.has_tag "high_value" ||
    (l.source == .referral && l.stage == .new)

/-- LeadStage(value) — the enum constructor, raising ValueError on other strings. -/
def parseLeadStage (s : String) : Option LeadStage :=
  if s == "new" then some .new
  else if s == "contacted" then some .contacted
  else if s == "qualified" then some .qualified
  else if s == "booked" then some .booked
  else if s == "confirmed" then some .confirmed
  else if s == "showed" then some .showed
  else if s == "no_show" then some .no_show
  else if s == "converted" then some .converted
  else if s == "lost" then some .lost
  else none

/-- LeadSource(value). -/
def parseLeadSource (s : String) : Option LeadSource :=
  if s == "organic" then some .organic
  else if s == "paid_ads" then some .paid_ads
  else if s == "social_media" then some .social_media
  else if s == "referral" then some .referral
  else if s == "direct" then some .direct
  else if s == "other" then some .other
  else none

/-- MessageDirection(value). -/
def parseMessageDirection (s : String) : Option MessageDirection :=
  if s == "inbound" then some .inbound
  else if s == "outbound" then some .outbound
  else none

/-- MessageStatus(value). -/
def parseMessageStatus (s : String) : Option MessageStatus :=
  if s == "queued" then some .queued
  else if s == "sent" then some .sent
  else if s == "delivered" then some .delivered
  else if s == "read" then some .read
  else if s == "failed" then some .failed
  else none

/-- MessageChannel(value). -/
def parseMessageChannel (s : String) : Option MessageChannel :=
  if s == "whatsapp" then some .whatsapp
  else if s == "sms" then some .sms
  else if s == "email" then some .email
  else if s == "voice" then some .voice
  else none

/-! ## Message model (app/models/message.py) -/

structure Message where
  id : Nat
  helena_message_id : Option String := none
  lead_id : Nat
  content : String
  direction : MessageDirection
  channel : MessageChannel
  status : MessageStatus := .sent
  delivered_at : Option Int := none
  read_at : Option Int := none
  failed_at : Option Int := none
  error_message : Option String := none
  created_at : Int
  deriving DecidableEq, Repr

def Message.mark_delivered (m : Message) (now : Int) : Message :=
  { m with status := .delivered, delivered_at := some now }

def Message.mark_read (m : Message) (now : Int) : Message :=
  { m with status := .read, read_at := some now }

def Message.mark_failed (m : Message) (error_message : String) (now : Int) : Message :=
  { m with status := .failed, failed_at := some now, error_message := some error_message }

/-! ## Appointment model (app/models/appointment.py) -/

structure Appointment where
  id : Nat
  ninsaude_id : Option String := none
  lead_id : Nat
  scheduled_date : Int
  duration_minutes : Int := 30
  status : AppointmentStatus := .scheduled
  professional_id : String
  clinic_id : String
  reminder_sent_24h : Bool := false
  reminder_sent_3h : Bool := false
  confirmation_sent : Bool := false
  notes : Option String := none
  cancellation_reason : Option String := none
  confirmed_at : Option Int := none
  reminded_at : Option Int := none
  completed_at : Option Int := none
  no_show_at : Option Int := none
  cancelled_at : Option Int := none
  created_at : Int
  deriving DecidableEq, Repr

def Appointment.time_until_appointment (a : Appointment) (now : Int) : Int :=
  a.scheduled_date - now

def Appointment.is_past_due (a : Appointment) (now : Int) : Bool :=
  now > a.scheduled_date

/-- The model's own guard for sending the 24h reminder: still confirmed, not
yet sent, and 20h–28h out. -/
def Appointment.needs_24h_reminder (a : Appointment) (now : Int) : Bool :=
  if a.reminder_sent_24h || !(a.status == .confirmed) then false
  else
    let time_until := a.time_until_appointment now
    20 * 3600 ≤ time_until && time_until ≤ 28 * 3600

/-- The model's own guard for sending the 3h reminder. -/
def Appointment.needs_3h_reminder (a : Appointment) (now : Int) : Bool :=
  if a.reminder_sent_3h || !(a.status == .confirmed) then false
  else
    let time_until := a.time_until_appointment now
    2 * 3600 ≤ time_until && time_until ≤ 4 * 3600

def Appointment.confirm (a : Appointment) (now : Int) : Appointment :=
  { a with status := .confirmed, confirmed_at := some now, confirmation_sent := true }

/-- Appointment.mark_reminded: unconditionally moves status to REMINDED and
sets the per-type flag. -/
def Appointment.mark_reminded (a : Appointment) (reminder_type : String) (now : Int) :
    Appointment :=
  let a := { a with status := .reminded, reminded_at := some now }
  if reminder_type == "24h" then { a with reminder_sent_24h := true }
  else if reminder_type == "3h" then { a with reminder_sent_3h := true }
  else a

def Appointment.mark_no_show (a : Appointment) (now : Int) : Appointment :=
  { a with status := .no_show, no_show_at := some now }

def Appointment.cancel (a : Appointment) (reason : Option String) (now : Int) : Appointment :=
  let a := { a with status := .cancelled, cancelled_at := some now }
  match reason with
  | some r => { a with cancellation_reason := some r }
  | none => a

def Appointment.reschedule (a : Appointment) (new_date : Int) : Appointment :=
  { a with status := .rescheduled, scheduled_date := new_date,
           reminder_sent_24h := false, reminder_sent_3h := false,
           confirmation_sent := false }

/-! ## Call model (app/models/call.py) -/

/-- One entry of `Call.vapi_function_calls`. -/
structure CallFunctionRecord where
  function_name : String
  parameters : List (String × String) := []
  result : Option (List (String × String)) := none
  timestamp : Int
  deriving DecidableEq, Repr

structure Call where
  id : Nat
  vapi_call_id : Option String := none
  twilio_call_sid : Option String := none
  lead_id : Nat
  direction : CallDirection
  status : CallStatus := .queued
  outcome : Option CallOutcome := none
  from_number : Option String := none
  to_number : Option String := none
  duration_seconds : Option Int := none
  queue_time_seconds : Option Int := none
  ring_time_seconds : Option Int := none
  talk_time_seconds : Option Int := none
  recording_url : Option String := none
  transcript : Option String := none
  transcript_summary : Option String := none
  vapi_assistant_id : Option String := none
  vapi_function_calls : List CallFunctionRecord := []
  ai_sentiment : Option String := none
  ai_intent : Option String := none
  cost_cents : Option Int := none
  metadata : List (String × String) := []
  error_code : Option String := none
  error_message : Option String := none
  initiated_at : Option Int := none
  ringing_at : Option Int := none
  answered_at : Option Int := none
  completed_at : Option Int := none
  failed_at : Option Int := none
  created_at : Int
  deriving DecidableEq, Repr

def Call.initiate (c : Call) (vapi_call_id : Option String)
    (twilio_call_sid : Option String) (now : Int) : Call :=
  let c := { c with status := .initiated, initiated_at := some now }
  let c := match vapi_call_id with
    | some v => if pyTruthyStr (some v) then { c with vapi_call_id := some v } else c
    | none => c
  match twilio_call_sid with
  | some t => if pyTruthyStr (some t) then { c with twilio_call_sid := some t } else c
  | none => c

def Call.mark_ringing (c : Call) (now : Int) : Call :=
  let c := { c with status := .ringing, ringing_at := some now }
  match c.initiated_at with
  | some t0 => { c with queue_time_seconds := some (now - t0) }
  | none => c

def Call.mark_answered (c : Call) (now : Int) : Call :=
  let c := { c with status := .answered, answered_at := some now }
  match c.ringing_at with
  | some t0 => { c with ring_time_seconds := some (now - t0) }
  | none => c

def Call.mark_completed (c : Call) (outcome : Option CallOutcome)
    (duration_seconds : Option Int) (now : Int) : Call :=
  let c := { c with status := .completed, completed_at := some now }
  let c := match outcome with
    | some o => { c with outcome := some o }
    | none => c
  match duration_seconds with
  | some d =>
      let c := { c with duration_seconds := some d }
      if c.answered_at.isSome then { c with talk_time_seconds := some d } else c
  | none => c

def Call.mark_failed (c : Call) (error_code error_message : Option String) (now : Int) :
    Call :=
  let c := { c with status := .failed, failed_at := some now }
  let c := if pyTruthyStr error_code then { c with error_code := error_code } else c
  if pyTruthyStr error_message then { c with error_message := error_message } else c

def Call.update_transcript (c : Call) (transcript : String) (summary : Option String) :
    Call :=
  let c := { c with transcript := some transcript }
  if pyTruthyStr summary then { c with transcript_summary := summary } else c

def Call.add_function_call (c : Call) (function_name : String)
    (parameters : List (String × String)) (result : Option (List (String × String)))
    (now : Int) : Call :=
  { c with vapi_function_calls :=
      c.vapi_function_calls ++
        [{ function_name := function_name, parameters := parameters,
           result := result, timestamp := now }] }

/-! ## Log model (app/models/log.py) -/

structure LogEntry where
  level : LogLevel
  category : LogCategory
  source : String
  message : String
  correlation_id : Option String := none
  lead_id : Option Nat := none
  appointment_id : Option Nat := none
  call_id : Option Nat := none
  message_id : Option Nat := none
  ip_address : Option String := none
  error_code : Option String := none
  deriving DecidableEq, Repr

def Log.create_webhook_log (source message : String) (level : LogLevel := .info)
    (lead_id : Option Nat := none) : LogEntry :=
  { level := level, category := .webhook, source := source, message := message,
    lead_id := lead_id }

def Log.create_api_call_log (source endpoint method : String) (status_code : Nat) :
    LogEntry :=
  { level := .info, category := .api_call, source := source,
    message := method ++ " " ++ endpoint ++ " -> " ++ toString status_code }

def Log.create_job_log (source job_name message : String)
    (correlation_id : Option String := none) : LogEntry :=
  { level := .info, category := .job, source := source, message := message,
    correlation_id := correlation_id }

def Log.create_error_log (source message : String) (lead_id : Option Nat := none) :
    LogEntry :=
  { level := .error, category := .system, source := source, message := message,
    lead_id := lead_id }

/-! ## Job dispatcher state (Redis queues and rq-scheduler, app/jobs/scheduler.py) -/

inductive QueueKind where
  | high_priority | default
  deriving DecidableEq, Repr

/-- An enqueued immediate job: the queue it went to, the job function's name,
and its arguments (only the arguments the source actually passes). -/
structure Job where
  queue : QueueKind
  func : String
  event_id : Option Nat := none
  lead_id : Option Nat := none
  appointment_id : Option Nat := none
  call_id : Option Nat := none
  message_id : Option Nat := none
  classification : Option LeadClassification := none
  reminder_type : Option String := none
  channel : Option String := none
  urgent : Option Bool := none
  correlation_id : Option String := none
  deriving DecidableEq, Repr

/-- A delayed job registered through scheduler.enqueue_at. -/
structure ScheduledJob where
  run_at : Int
  job : Job
  deriving DecidableEq, Repr

/-- The persistent state: entity tables, the event log, the log table, the two
immediate queues (flattened into one list tagged by queue) and the delayed
scheduler, plus the fresh-id counter. -/
structure DB where
  leads : List Lead := []
  messages : List Message := []
  calls : List Call := []
  appointments : List Appointment := []
  events : List Event := []
  logs : List LogEntry := []
  jobs : List Job := []
  scheduled : List ScheduledJob := []
  nextId : Nat := 0
  deriving DecidableEq, Repr

/-- Allocate a fresh entity id (the source uses uuid4). -/
def DB.fresh (db : DB) : Nat × DB :=
  (db.nextId, { db with nextId := db.nextId + 1 })

def DB.replaceLead (db : DB) (l : Lead) : DB :=
  { db with leads := db.leads.map (fun x => if x.id == l.id then l else x) }

def DB.replaceMessage (db : DB) (m : Message) : DB :=
  { db with messages := db.messages.map (fun x => if x.id == m.id then m else x) }

def DB.replaceCall (db : DB) (c : Call) : DB :=
  { db with calls := db.calls.map (fun x => if x.id == c.id then c else x) }

def DB.replaceAppointment (db : DB) (a : Appointment) : DB :=
  { db with appointments := db.appointments.map (fun x => if x.id == a.id then a else x) }

def DB.replaceEvent (db : DB) (e : Event) : DB :=
  { db with events := db.events.map (fun x => if x.id == e.id then e else x) }

def DB.enqueue (db : DB) (j : Job) : DB :=
  { db with jobs := db.jobs ++ [j] }

def DB.enqueue_at (db : DB) (run_at : Int) (j : Job) : DB :=
  { db with scheduled := db.scheduled ++ [{ run_at := run_at, job := j }] }

def DB.addLog (db : DB) (l : LogEntry) : DB :=
  { db with logs := db.logs ++ [l] }

/-- enqueue_orchestration_job: put a process_orchestration_event job on the
high-priority queue. -/
def enqueue_orchestration_job (event_id : Nat) (correlation_id : String) (db : DB) : DB :=
  db.enqueue
    { queue := .high_priority, func := "process_orchestration_event",
      event_id := some event_id, correlation_id := some correlation_id }

/-! ## Helena CRM webhook pipeline (app/api/v1/helena.py) -/

structure HelenaWebhookPayload where
  event_type : String
  timestamp : Int
  data : HelenaData
  helena_lead_id : Option String := none
  idempotency_key : Option String := none
  deriving DecidableEq, Repr

/-- The key under which a Helena delivery is deduplicated: the payload's own
idempotency_key if truthy, otherwise derived as
f"helena_{event_type}_{helena_lead_id}_{int(timestamp.timestamp())}". -/
def helena_resolved_key (p : HelenaWebhookPayload) : String :=
  if pyTruthyStr p.idempotency_key then pyStrOpt p.idempotency_key
  else "helena_" ++ p.event_type ++ "_" ++ pyStrOpt p.helena_lead_id ++ "_" ++
    toString p.timestamp

/-- The event_mapping dict of process_helena_event. -/
def helena_event_mapping (s : String) : Option EventType :=
  if s == "lead_created" then some .lead_created
  else if s == "lead_updated" then some .lead_updated
  else if s == "lead_stage_changed" then some .lead_stage_changed
  else if s == "lead_tag_added" then some .lead_tag_added
  else if s == "message_received" then some .message_received
  else if s == "message_sent" then some .message_sent
  else if s == "message_delivered" then some .message_delivered
  else if s == "message_read" then some .message_read
  else none

/-- The lead-construction block of handle_lead_event's create branch: stage and
source parsing with fallbacks, and tag/source-based classification. -/
def helena_new_lead (d : HelenaLeadData) (lid : Nat) (now : Int) : Lead :=
  let stage : LeadStage :=
    match d.stage with
    | some s => if s == "" then .new else (parseLeadStage s.toLower).getD .new
    | none => .new
  let src : LeadSource :=
    match d.source with
    | some s => if s == "" then .other else (parseLeadSource s.toLower).getD .other
    | none => .other
  let classification : LeadClassification :=
    if (d.tags.getD []).any (fun t => ["urgent", "hot", "high_value"].contains t.toLower)
    then .hot
    else if pyTruthyStr d.source && (pyStrOpt d.source).toLower == "referral" then .warm
    else .warm
  { id := lid, helena_id := d.helena_id, first_name := d.first_name,
    last_name := d.last_name, email := d.email, phone := d.phone,
    stage := stage, classification := classification, source := src,
    tags := d.tags.getD [], custom_fields := d.custom_fields.getD [],
    notes := d.notes, assigned_agent_id := d.assigned_agent_id,
    created_at := now, updated_at := now }

/-- The update block of handle_lead_event: overwrite-if-truthy field updates,
stage change on lead_stage_changed, tag additions on lead_tag_added, and the
custom-fields merge. -/
def helena_update_lead (p : HelenaWebhookPayload) (d : HelenaLeadData) (l : Lead)
    (now : Int) : Lead :=
  let l := if !(d.first_name == "") then { l with first_name := d.first_name } else l
  let l := if pyTruthyStr d.last_name then { l with last_name := d.last_name } else l
  let l := if pyTruthyStr d.email then { l with email := d.email } else l
  let l := if !(d.phone == "") then { l with phone := d.phone } else l
  let l := if pyTruthyStr d.notes then { l with notes := d.notes } else l
  let l := if pyTruthyStr d.assigned_agent_id then
             { l with assigned_agent_id := d.assigned_agent_id } else l
  let l :=
    if p.event_type == "lead_stage_changed" && pyTruthyStr d.stage then
      match parseLeadStage ((pyStrOpt d.stage).toLower) with
      | some ns => l.update_stage ns now
      | none => l    -- invalid stage value: warning logged, no change
    else l
  let l :=
    if p.event_type == "lead_tag_added" && pyTruthyList d.tags then
      (d.tags.getD []).foldl (fun acc t => acc.add_tag t) l
    else l
  if pyTruthyDict d.custom_fields then
    { l with custom_fields := dictUpdate l.custom_fields (d.custom_fields.getD []) }
  else l

/-- handle_lead_event.  `.error` is a raised ValueError (caught by the endpoint's
generic handler); every raise happens before any entity mutation, so the
pre-call state is the state the error path sees. -/
def handle_lead_event (p : HelenaWebhookPayload) (now : Int) (db : DB) :
    Except String (DB × Lead) :=
  match p.data with
  | .leadData d =>
    let lead? := db.leads.find? (fun l => l.helena_id == d.helena_id)
    if p.event_type == "lead_created" || lead?.isNone then
      match lead? with
      | none =>
        let (lid, db) := db.fresh
        let lead := helena_new_lead d lid now
        .ok ({ db with leads := db.leads ++ [lead] }, lead)
      | some l =>
        -- event_type == "lead_created" and the lead already exists: neither the
        -- create branch nor the update branch runs
        .ok (db, l)
    else
      match lead? with
      | some l => .ok (db.replaceLead (helena_update_lead p d l now), l)
      | none => .error "unreachable"
  | _ => .error "Invalid lead data"

/-- handle_message_event.  A lead that cannot be resolved is NOT an error: the
source logs a Python-logger warning and returns None, and no Log row is
written. -/
def handle_message_event (p : HelenaWebhookPayload) (now : Int) (db : DB) :
    Except String (DB × Option Lead) :=
  match p.data with
  | .messageData m =>
    match db.leads.find? (fun l => l.helena_id == m.helena_lead_id) with
    | none => .ok (db, none)
    | some lead =>
      let message? :=
        db.messages.find? (fun x => x.helena_message_id == some m.helena_message_id)
      if message?.isNone &&
          (p.event_type == "message_received" || p.event_type == "message_sent") then
        -- constructing the Message evaluates MessageDirection(direction.lower())
        -- and MessageChannel(channel.lower()); each raises on an unknown value
        match parseMessageDirection m.direction.toLower with
        | none => .error ("not a valid MessageDirection: " ++ m.direction.toLower)
        | some dir =>
          match parseMessageChannel m.channel.toLower with
          | none => .error ("not a valid MessageChannel: " ++ m.channel.toLower)
          | some ch =>
            let (mid, db) := db.fresh
            let st : MessageStatus :=
              if pyTruthyStr m.status then
                (parseMessageStatus ((pyStrOpt m.status).toLower)).getD .sent
              else .sent
            let msg : Message :=
              { id := mid, helena_message_id := some m.helena_message_id,
                lead_id := lead.id, content := m.content, direction := dir,
                channel := ch, status := st, created_at := now }
            let db := { db with messages := db.messages ++ [msg] }
            if msg.direction == .outbound then
              let lead := { lead with last_contacted_at := some now }
              .ok (db.replaceLead lead, some lead)
            else .ok (db, some lead)
      else
        match message? with
        | some msg =>
          let msg :=
            if p.event_type == "message_delivered" then msg.mark_delivered now
            else if p.event_type == "message_read" then msg.mark_read now
            else msg
          let db := db.replaceMessage msg
          if msg.direction == .outbound then
            let lead := { lead with last_contacted_at := some now }
            .ok (db.replaceLead lead, some lead)
          else .ok (db, some lead)
        | none => .ok (db, some lead)
  | _ => .error "Invalid message data"

/-- process_helena_event: resolve the entity, create the Event record (with the
already-resolved idempotency key) and attach the triggered actions derived
from the post-resolution lead state. -/
def process_helena_event (p : HelenaWebhookPayload) (correlation_id : String) (now : Int)
    (db : DB) : Except String (DB × Event) :=
  match helena_event_mapping p.event_type with
  | none => .error ("Unsupported Helena event type: " ++ p.event_type)
  | some etype =>
    let handled : Except String (DB × Option Lead) :=
      if ["lead_created", "lead_updated", "lead_stage_changed",
          "lead_tag_added"].contains p.event_type then
        (handle_lead_event p now db).map (fun r => (r.1, some r.2))
      else if ["message_received", "message_sent", "message_delivered",
               "message_read"].contains p.event_type then
        handle_message_event p now db
      else
        .ok (db, none)
    match handled with
    | .error e => .error e
    | .ok (db, lead) =>
      let (eid, db) := db.fresh
      let event := Event.create_from_webhook eid etype "helena" (.helena p.data)
        (lead.map (fun l => l.id)) p.idempotency_key (some p.timestamp) now
      let event := { event with correlation_id := some correlation_id }
      let event :=
        match lead with
        | some l =>
          if etype == .lead_created && l.is_hot_lead then
            event.add_triggered_action "initiate_hot_lead_sequence"
              { lead_id := some l.id } now
          else if etype == .lead_tag_added && l.has_tag "handoff" then
            event.add_triggered_action "trigger_handoff" { lead_id := some l.id } now
          else if etype == .lead_stage_changed && l.stage == .booked then
            event.add_triggered_action "schedule_appointment_reminders"
              { lead_id := some l.id } now
          else if etype == .message_received then
            event.add_triggered_action "process_inbound_message"
              { lead_id := some l.id } now
          else event
        | none =>
          if etype == .message_received then
            event.add_triggered_action "process_inbound_message" { lead_id := none } now
          else event
      .ok ({ db with events := db.events ++ [event] }, event)

/-- The JSON responses of the /webhooks/helena endpoint. -/
inductive HelenaResponse where
  /-- {"status": "success", "message": "Webhook processed successfully", ...} -/
  | success (event_id : Nat) (correlation_id : String)
  /-- {"status": "success", "message": "Event already processed", "event_id": ...} -/
  | alreadyProcessed (event_id : Nat)
  /-- HTTP 500 "Failed to process webhook" -/
  | error500
  deriving DecidableEq, Repr

/-- helena_webhook: signature check and rate limiting are outside the model;
the duplicate check short-circuits before any processing, and the generic
exception handler appends an error Log row (every raise in
process_helena_event happens before its first entity mutation, so the
pre-call state is exactly what the handler commits the error log onto). -/
def helena_webhook (p : HelenaWebhookPayload) (correlation_id : String) (now : Int)
    (db : DB) : DB × HelenaResponse :=
  let key := helena_resolved_key p
  let p := { p with idempotency_key := some key }
  match db.events.find? (fun e => e.idempotency_key == some key) with
  | some existing => (db, .alreadyProcessed existing.id)
  | none =>
    match process_helena_event p correlation_id now db with
    | .ok (db, event) =>
      let db := enqueue_orchestration_job event.id correlation_id db
      let log := Log.create_webhook_log "helena"
        ("Successfully processed " ++ p.event_type) .info event.lead_id
      let log := { log with correlation_id := some correlation_id }
      (db.addLog log, .success event.id correlation_id)
    | .error e =>
      let log := Log.create_error_log "helena_webhook" ("Failed to process webhook: " ++ e)
      let log := { log with correlation_id := some correlation_id }
      (db.addLog log, .error500)

/-! ## Orchestrator (app/jobs/scheduler.py) -/

/-- One entry of the result's actions_triggered list (job ids are opaque
handles used only for logging; they are not modelled). -/
structure ActionResult where
  action : String
  error : Option String := none
  deriving DecidableEq, Repr

/-- Outcome of process_orchestration_event. -/
inductive OrchOutcome where
  /-- {"status": "success", "actions_triggered": [...]} -/
  | ok (actions_triggered : List ActionResult)
  /-- {"status": "error", "error": ...} returned after the except block ran -/
  | errorResult (error : String)
  /-- an exception escaped the function (only the event-not-found path: the
  except block evaluates None.mark_failed and raises AttributeError) -/
  | raised (exn : String)
  deriving DecidableEq, Repr

/-- Oracle for the runtime failures (database, Redis, service calls) that the
source's try/except blocks are written for: `handlerExn` is an exception
raised during the type-specific handler dispatch (step 3), `actionExn i` an
exception raised inside execute_triggered_action while executing the i-th
entry of the Event's own triggers_actions. -/
structure ExnOracle where
  handlerExn : Option String := none
  actionExn : Nat → Option String := fun _ => none

/-- The oracle of a run in which no runtime failure occurs. -/
def noFailures : ExnOracle := {}

def handle_lead_created (event : Event) (correlation_id : String) (now : Int) (db : DB) :
    DB × List ActionResult :=
  match db.leads.find? (fun l => some l.id == event.lead_id) with
  | none => (db, [])
  | some lead =>
    if lead.is_hot_lead then
      let db := db.enqueue
        { queue := .high_priority, func := "initiate_hot_lead_call",
          lead_id := some lead.id, correlation_id := some correlation_id }
      let db := db.enqueue
        { queue := .high_priority, func := "send_welcome_whatsapp",
          lead_id := some lead.id, urgent := some true,
          correlation_id := some correlation_id }
      (db, [{ action := "initiate_hot_lead_call" }, { action := "send_urgent_whatsapp" }])
    else
      let follow_up_time := now + 2 * 3600
      let db := db.enqueue_at follow_up_time
        { queue := .default, func := "initiate_lead_follow_up",
          lead_id := some lead.id, correlation_id := some correlation_id }
      (db, [{ action := "schedule_follow_up" }])

def handle_lead_stage_changed (event : Event) (correlation_id : String) (now : Int)
    (db : DB) : DB × List ActionResult :=
  match db.leads.find? (fun l => some l.id == event.lead_id) with
  | none => (db, [])
  | some lead =>
    if lead.stage == .qualified then
      let db := db.enqueue
        { queue := .default, func := "send_booking_whatsapp",
          lead_id := some lead.id, correlation_id := some correlation_id }
      (db, [{ action := "send_booking_whatsapp" }])
    else if lead.stage == .booked then
      let db := db.enqueue
        { queue := .default, func := "schedule_appointment_reminders",
          appointment_id := event.appointment_id }
      (db, [{ action := "schedule_appointment_reminders" }])
    else (db, [])

def handle_lead_tag_added (event : Event) (correlation_id : String) (now : Int)
    (db : DB) : DB × List ActionResult :=
  match db.leads.find? (fun l => some l.id == event.lead_id) with
  | none => (db, [])
  | some lead =>
    let first :=
      if lead.has_tag "handoff" then
        (db.enqueue
          { queue := .high_priority, func := "trigger_agent_handoff",
            lead_id := some lead.id, correlation_id := some correlation_id },
         [({ action := "trigger_agent_handoff" } : ActionResult)])
      else (db, [])
    let db := first.1
    let acc := first.2
    if lead.has_tag "urgent" && !(lead.has_tag "contacted_urgent") then
      let db := db.enqueue
        { queue := .high_priority, func := "initiate_urgent_call",
          lead_id := some lead.id, correlation_id := some correlation_id }
      let db := db.replaceLead (lead.add_tag "contacted_urgent")
      (db, acc ++ [{ action := "initiate_urgent_call" }])
    else (db, acc)

def handle_message_received (event : Event) (correlation_id : String) (now : Int)
    (db : DB) : DB × List ActionResult :=
  match db.leads.find? (fun l => some l.id == event.lead_id) with
  | none => (db, [])
  | some lead =>
    let db := db.enqueue
      { queue := .default, func := "process_inbound_message",
        message_id := event.message_id, correlation_id := some correlation_id }
    (db, [{ action := "process_inbound_message" }])

def handle_call_completed (event : Event) (correlation_id : String) (now : Int)
    (db : DB) : DB × List ActionResult :=
  match db.calls.find? (fun c => some c.id == event.call_id) with
  | none => (db, [])
  | some call =>
    if call.outcome == some .appointment_booked then
      let db := db.enqueue
        { queue := .default, func := "process_call_appointment_booking",
          call_id := some call.id, correlation_id := some correlation_id }
      (db, [{ action := "process_call_appointment_booking" }])
    else if call.outcome == some .callback_requested then
      let callback_time := now + 24 * 3600
      let db := db.enqueue_at callback_time
        { queue := .default, func := "initiate_callback",
          lead_id := some call.lead_id, correlation_id := some correlation_id }
      (db, [{ action := "schedule_callback" }])
    else if call.outcome == some .not_interested then
      let db := db.enqueue
        { queue := .default, func := "update_lead_classification",
          lead_id := some call.lead_id, classification := some .cold,
          correlation_id := some correlation_id }
      (db, [{ action := "update_lead_classification" }])
    else (db, [])

def handle_appointment_booked (event : Event) (correlation_id : String) (now : Int)
    (db : DB) : DB × List ActionResult :=
  match db.appointments.find? (fun a => some a.id == event.appointment_id) with
  | none => (db, [])
  | some appointment =>
    let db := db.enqueue
      { queue := .default, func := "send_booking_confirmation",
        appointment_id := some appointment.id, correlation_id := some correlation_id }
    let db :=
      match db.leads.find? (fun l => l.id == appointment.lead_id) with
      | some lead => db.replaceLead (lead.update_stage .booked now)
      | none => db
    (db, [{ action := "send_booking_confirmation" }])

def handle_appointment_no_show (event : Event) (correlation_id : String) (now : Int)
    (db : DB) : DB × List ActionResult :=
  match db.appointments.find? (fun a => some a.id == event.appointment_id) with
  | none => (db, [])
  | some appointment =>
    let db := db.enqueue
      { queue := .default, func := "trigger_no_show_reactivation",
        appointment_id := some appointment.id, correlation_id := some correlation_id }
    (db, [{ action := "trigger_no_show_reactivation" }])

/-- execute_triggered_action.  Its own try/except catches every exception of
the enqueue calls and turns it into an {"action": ..., "error": ...} result:
such an exception never reaches process_orchestration_event.  An unknown
action type is logged and skipped (returns None). -/
def execute_triggered_action (action : TriggeredAction) (correlation_id : String)
    (exn : Option String) (db : DB) : DB × Option ActionResult :=
  let action_type := action.type
  let action_data := action.data
  if action_type == "initiate_hot_lead_sequence" then
    match exn with
    | some e => (db, some { action := action_type, error := some e })
    | none =>
      (db.enqueue
        { queue := .high_priority, func := "initiate_hot_lead_call",
          lead_id := action_data.lead_id, correlation_id := some correlation_id },
       some { action := action_type })
  else if action_type == "trigger_handoff" then
    match exn with
    | some e => (db, some { action := action_type, error := some e })
    | none =>
      (db.enqueue
        { queue := .high_priority, func := "trigger_agent_handoff",
          lead_id := action_data.lead_id, correlation_id := some correlation_id },
       some { action := action_type })
  else if action_type == "schedule_appointment_reminders" then
    match exn with
    | some e => (db, some { action := action_type, error := some e })
    | none =>
      (db.enqueue
        { queue := .default, func := "schedule_appointment_reminders",
          appointment_id := action_data.appointment_id },
       some { action := action_type })
  else if action_type == "process_inbound_message" then
    match exn with
    | some e => (db, some { action := action_type, error := some e })
    | none =>
      (db.enqueue
        { queue := .default, func := "process_inbound_message",
          message_id := action_data.message_id, correlation_id := some correlation_id },
       some { action := action_type })
  else
    (db, none)

/-- One iteration of the for-loop over the Event's own triggers_actions:
execute the action, appending its result (when not None) to the accumulated
actions_triggered list. -/
def run_triggered_action (correlation_id : String) (oracle : ExnOracle)
    (acc : DB × List ActionResult) (ia : Nat × TriggeredAction) : DB × List ActionResult :=
  let step := execute_triggered_action ia.2 correlation_id (oracle.actionExn ia.1) acc.1
  match step.2 with
  | some r => (step.1, acc.2 ++ [r])
  | none => (step.1, acc.2)

/-- The if/elif dispatch over event types (step 3): unknown or unhandled
types are a no-op that still reaches completed. -/
def dispatch_handler (event : Event) (correlation_id : String) (now : Int) (db : DB) :
    DB × List ActionResult :=
  if event.event_type == .lead_created then
    handle_lead_created event correlation_id now db
  else if event.event_type == .lead_stage_changed then
    handle_lead_stage_changed event correlation_id now db
  else if event.event_type == .lead_tag_added then
    handle_lead_tag_added event correlation_id now db
  else if event.event_type == .message_received then
    handle_message_received event correlation_id now db
  else if event.event_type == .call_completed then
    handle_call_completed event correlation_id now db
  else if event.event_type == .appointment_booked then
    handle_appointment_booked event correlation_id now db
  else if event.event_type == .appointment_no_show then
    handle_appointment_no_show event correlation_id now db
  else (db, [])

/-- "Process any additional triggered actions from the event" (step 5). -/
def run_triggered_actions (event : Event) (correlation_id : String) (oracle : ExnOracle)
    (handled : DB × List ActionResult) : DB × List ActionResult :=
  if !event.triggers_actions.isEmpty then
    event.triggers_actions.enum.foldl (run_triggered_action correlation_id oracle) handled
  else handled

/-- process_orchestration_event: load the Event, mark it processing, dispatch
the type-specific handler, then execute every entry of the Event's own
triggers_actions, then mark completed; any exception in the handler step is
caught at the top, marking the Event failed. -/
def process_orchestration_event (event_id : Nat) (correlation_id : String)
    (oracle : ExnOracle) (now : Int) (db : DB) : DB × OrchOutcome :=
  match db.events.find? (fun e => e.id == event_id) with
  | none =>
    (db, .raised ("AttributeError after: Event " ++ toString event_id ++ " not found"))
  | some event0 =>
    let event := event0.mark_processing now
    let db := db.replaceEvent event
    match oracle.handlerExn with
    | some msg =>
      let event := event.mark_failed msg now
      let db := db.replaceEvent event
      let db := db.addLog (Log.create_error_log "orchestrator"
        ("Failed to process event " ++ toString event_id ++ ": " ++ msg))
      (db, .errorResult msg)
    | none =>
      let looped := run_triggered_actions event correlation_id oracle
        (dispatch_handler event correlation_id now db)
      let db := looped.1
      let event := event.mark_completed now
      let db := db.replaceEvent event
      let log := Log.create_job_log "orchestrator" "process_orchestration_event"
        "Successfully processed event" (some correlation_id)
      let db := db.addLog { log with lead_id := event.lead_id }
      (db, .ok looped.2)

/-! ## Reminder jobs (app/jobs/scheduler.py) -/

/-- Result dict of a job function (these functions catch their own
exceptions and return {"status": "error"} instead of raising). -/
inductive JobResult where
  | success
  | error (msg : String)
  deriving DecidableEq, Repr

/-- schedule_appointment_reminders: register the 24h (whatsapp) and 3h (voice)
reminders, each only if its send time is still in the future. -/
def schedule_appointment_reminders (appointment_id : Option Nat) (now : Int) (db : DB) :
    DB × JobResult :=
  match db.appointments.find? (fun a => some a.id == appointment_id) with
  | none => (db, .error "Appointment not found")
  | some appointment =>
    let reminder_24h_time := appointment.scheduled_date - 24 * 3600
    let db :=
      if reminder_24h_time > now then
        db.enqueue_at reminder_24h_time
          { queue := .default, func := "send_appointment_reminder",
            appointment_id := some appointment.id, reminder_type := some "24h",
            channel := some "whatsapp" }
      else db
    let reminder_3h_time := appointment.scheduled_date - 3 * 3600
    let db :=
      if reminder_3h_time > now then
        db.enqueue_at reminder_3h_time
          { queue := .default, func := "send_appointment_reminder",
            appointment_id := some appointment.id, reminder_type := some "3h",
            channel := some "voice" }
      else db
    (db, .success)

/-- send_appointment_reminder: loads the appointment and marks the reminder
sent; the appointment's current status and reminder window are not checked. -/
def send_appointment_reminder (appointment_id : Option Nat) (reminder_type channel : String)
    (now : Int) (db : DB) : DB × JobResult :=
  match db.appointments.find? (fun a => some a.id == appointment_id) with
  | none => (db, .error "Appointment not found")
  | some appointment =>
    (db.replaceAppointment (appointment.mark_reminded reminder_type now), .success)

/-! ## VAPI voice-callback pipeline (app/api/v1/callbacks.py) -/

structure VAPIFunctionCall where
  name : String
  parameters : List (String × String) := []
  result : Option (List (String × String)) := none
  deriving DecidableEq, Repr

/-- VAPITranscript (the float confidence score is never read by any logic and
is not modelled). -/
structure VAPITranscript where
  text : String
  summary : Option String := none
  sentiment : Option String := none
  intent : Option String := none
  deriving DecidableEq, Repr

/-- VAPICallData.  The float dollar cost is modelled directly as the integral
cents value int(cost*100) the source stores. -/
structure VAPICallData where
  call_id : String
  status : String
  phone_number : Option String := none
  duration : Option Int := none
  started_at : Option Int := none
  ended_at : Option Int := none
  answered_at : Option Int := none
  cost_cents : Option Int := none
  recording_url : Option String := none
  transcript : Option VAPITranscript := none
  function_calls : List VAPIFunctionCall := []
  metadata : List (String × String) := []
  error_message : Option String := none
  twilio_call_sid : Option String := none
  deriving DecidableEq, Repr

structure VAPIWebhookPayload where
  event_type : String
  timestamp : Int
  data : VAPICallData
  assistant_id : Option String := none
  deriving DecidableEq, Repr

/-- The keyword lists of determine_call_outcome, verbatim (note that
"when can I come in" keeps its capital I in the source even though it is
matched against a lowercased transcript). -/
def appointment_keywords : List String :=
  ["book appointment", "schedule appointment", "yes, book it",
   "when can I come in", "what times are available"]

def callback_keywords : List String :=
  ["call me back", "call later", "better time", "not now"]

def interest_keywords : List String :=
  ["interested", "tell me more", "sounds good", "yes"]

def not_interested_keywords : List String :=
  ["not interested", "no thank you", "remove me", "don\x27t call"]

/-- The for-loop over function_calls: first explicit function result wins. -/
def scan_function_calls : List VAPIFunctionCall → Option CallOutcome
  | [] => none
  | fc :: rest =>
    if fc.name == "book_appointment" && pyTruthyDict fc.result then
      some .appointment_booked
    else if fc.name == "schedule_callback" && pyTruthyDict fc.result then
      some .callback_requested
    else scan_function_calls rest

/-- determine_call_outcome.  The source annotates Optional[CallOutcome] but
every path returns a value, ending in the SUCCESSFUL default. -/
def determine_call_outcome (vapi_data : VAPICallData) : CallOutcome :=
  match scan_function_calls vapi_data.function_calls with
  | some o => o
  | none =>
    let fallback : CallOutcome :=
      match vapi_data.duration with
      | some d => if !(d == 0) && d < 10 then .no_answer else .successful
      | none => .successful
    match vapi_data.transcript with
    | some tr =>
      let transcript_lower := tr.text.toLower
      if appointment_keywords.any (fun k => strContains transcript_lower k) then
        .appointment_booked
      else if callback_keywords.any (fun k => strContains transcript_lower k) then
        .callback_requested
      else if not_interested_keywords.any (fun k => strContains transcript_lower k) then
        .not_interested
      else if interest_keywords.any (fun k => strContains transcript_lower k) then
        .interested
      else if tr.sentiment == some "negative" then .not_interested
      else if tr.sentiment == some "positive" then .interested
      else fallback
    | none => fallback

def create_call_from_vapi_data (vapi_data : VAPICallData) (lead_id : Nat) (now : Int)
    (db : DB) : DB × Call :=
  let (cid, db) := db.fresh
  let call : Call :=
    { id := cid, vapi_call_id := some vapi_data.call_id,
      twilio_call_sid := vapi_data.twilio_call_sid, lead_id := lead_id,
      direction := .outbound, from_number := some "TWILIO_PHONE_NUMBER",
      to_number := vapi_data.phone_number, status := .queued, created_at := now }
  let call :=
    if vapi_data.started_at.isSome then { call with initiated_at := vapi_data.started_at }
    else call
  ({ db with calls := db.calls ++ [call] }, call)

def update_call_from_vapi_event (call : Call) (payload : VAPIWebhookPayload) (now : Int) :
    Call :=
  let vapi_data := payload.data
  let call :=
    if pyTruthyStr vapi_data.twilio_call_sid && !pyTruthyStr call.twilio_call_sid then
      { call with twilio_call_sid := vapi_data.twilio_call_sid }
    else call
  let call :=
    if vapi_data.started_at.isSome && call.initiated_at.isNone then
      { call with initiated_at := vapi_data.started_at }
    else call
  let call :=
    if vapi_data.ended_at.isSome && call.completed_at.isNone then
      { call with completed_at := vapi_data.ended_at }
    else call
  let call :=
    if vapi_data.answered_at.isSome && call.answered_at.isNone then
      { call with answered_at := vapi_data.answered_at }
    else call
  let call :=
    if vapi_data.duration.isSome then { call with duration_seconds := vapi_data.duration }
    else call
  let call :=
    if vapi_data.cost_cents.isSome then { call with cost_cents := vapi_data.cost_cents }
    else call
  let call :=
    if pyTruthyStr vapi_data.recording_url then
      { call with recording_url := vapi_data.recording_url }
    else call
  let call :=
    if pyTruthyStr payload.assistant_id then
      { call with vapi_assistant_id := payload.assistant_id }
    else call
  let call :=
    if payload.event_type == "call-started" then
      call.initiate (some vapi_data.call_id) vapi_data.twilio_call_sid now
    else if payload.event_type == "call-ringing" then call.mark_ringing now
    else if payload.event_type == "call-answered" then call.mark_answered now
    else if payload.event_type == "call-ended" then
      call.mark_completed (some (determine_call_outcome vapi_data)) vapi_data.duration now
    else if payload.event_type == "call-failed" then
      call.mark_failed none vapi_data.error_message now
    else call
  let call :=
    match vapi_data.transcript with
    | some tr =>
      let call := call.update_transcript tr.text tr.summary
      let call :=
        if pyTruthyStr tr.sentiment then { call with ai_sentiment := tr.sentiment } else call
      if pyTruthyStr tr.intent then { call with ai_intent := tr.intent } else call
    | none => call
  let call :=
    if !vapi_data.function_calls.isEmpty then
      vapi_data.function_calls.foldl
        (fun c fc => c.add_function_call fc.name fc.parameters fc.result now) call
    else call
  if !vapi_data.metadata.isEmpty then
    { call with metadata := dictUpdate call.metadata vapi_data.metadata }
  else call

/-- The event_type_mapping dict of vapi_callback. -/
def vapi_event_type_mapping (s : String) : Option EventType :=
  if s == "call-started" then some .call_initiated
  else if s == "call-answered" then some .call_answered
  else if s == "call-ended" then some .call_completed
  else if s == "call-failed" then some .call_failed
  else none

/-- The JSON responses of the /callbacks/vapi endpoint. -/
inductive VAPIResponse where
  | success (call_id : Nat) (correlation_id : String)
  /-- HTTP 404: call record not found (and no matching lead by phone) -/
  | notFound
  /-- HTTP 500 from the generic exception handler -/
  | error500
  deriving DecidableEq, Repr

/-- The "Add orchestration actions based on call outcome" block of
vapi_callback. -/
def vapi_derive_actions (payload : VAPIWebhookPayload) (updated_call : Call) (now : Int)
    (event : Event) : Event :=
  if payload.event_type == "call-ended" && updated_call.outcome.isSome then
    if updated_call.outcome == some CallOutcome.appointment_booked then
      event.add_triggered_action "process_appointment_booking"
        { lead_id := some updated_call.lead_id, call_id := some updated_call.id } now
    else if updated_call.outcome == some CallOutcome.callback_requested then
      event.add_triggered_action "schedule_callback"
        { lead_id := some updated_call.lead_id, call_id := some updated_call.id } now
    else if updated_call.outcome == some CallOutcome.not_interested then
      event.add_triggered_action "update_lead_classification"
        { lead_id := some updated_call.lead_id, classification := some "cold" } now
    else event
  else event

/-- vapi_callback (signature check outside the model).  Note that the Event it
creates goes through Event.create_lead_event, which never sets an
idempotency_key, and that no duplicate check of any kind is performed. -/
def vapi_callback (payload : VAPIWebhookPayload) (correlation_id : String) (now : Int)
    (db : DB) : DB × VAPIResponse :=
  let call? := db.calls.find? (fun c => c.vapi_call_id == some payload.data.call_id)
  let found : Option (DB × Call) :=
    match call? with
    | some c => some (db, c)
    | none =>
      match payload.data.phone_number with
      | some pn =>
        match db.leads.find? (fun l => l.phone == pn) with
        | some lead => some (create_call_from_vapi_data payload.data lead.id now db)
        | none => none
      | none => none
  match found with
  | none => (db, .notFound)
  | some (db, call) =>
    let updated_call := update_call_from_vapi_event call payload now
    let db := db.replaceCall updated_call
    let db :=
      match vapi_event_type_mapping payload.event_type with
      | some etype =>
        let (eid, db) := db.fresh
        let event := Event.create_lead_event eid etype (some updated_call.lead_id)
          (.callInfo updated_call.id payload.data.call_id payload.data.status
            payload.data.duration updated_call.outcome)
          "system" (some correlation_id) now
        let event := vapi_derive_actions payload updated_call now event
        let db := { db with events := db.events ++ [event] }
        enqueue_orchestration_job event.id correlation_id db
      | none => db
    let log := Log.create_api_call_log "vapi_callback" "/callbacks/vapi" "POST" 200
    let log := { log with
                 correlation_id := some correlation_id,
                 call_id := some updated_call.id,
                 lead_id := some updated_call.lead_id }
    (db.addLog log, .success updated_call.id correlation_id)

theorem applyOps_retry_count (ops : List EOp) :
    ∀ e : Event, (applyOps e ops).retry_count = e.retry_count + countFailed ops := by
  induction ops with
  | nil => intro e; simp [applyOps, countFailed]
  | cons op rest ih =>
    intro e
    have h1 : applyOps e (op :: rest) = applyOps (applyOp e op) rest := by
      simp [applyOps]
    rw [h1, ih]
    cases op <;>
      simp [applyOp, Event.mark_processing, Event.mark_completed, Event.mark_failed,
            Event.mark_skipped, countFailed, List.filter, EOp.isFailedOp] <;> omega

theorem applyOps_completed_processed (ops : List EOp) :
    ∀ e : Event, (e.status = .completed → (e.processed_at).isSome) →
      (applyOps e ops).status = .completed → ((applyOps e ops).processed_at).isSome := by
  induction ops with
  | nil => intro e h; simpa [applyOps] using h
  | cons op rest ih =>
    intro e h
    have h1 : applyOps e (op :: rest) = applyOps (applyOp e op) rest := by
      simp [applyOps]
    rw [h1]
    apply ih
    cases op <;>
      simp [applyOp, Event.mark_processing, Event.mark_completed, Event.mark_failed,
            Event.mark_skipped]

/-- C4: For every Event reachable from a fresh pending Event by any sequence of
the transition operations mark_processing, mark_completed, mark_failed and
mark_skipped: if status is completed then processed_at is set, and retry_count
equals the number of mark_failed transitions applied so far (0 if none). -/
theorem C4_completed_invariant (e0 : Event) (ops : List EOp)
    (hfresh_status : e0.status = .pending)
    (hfresh_retry : e0.retry_count = 0)
    (hcompleted : (applyOps e0 ops).status = .completed) :
    ((applyOps e0 ops).processed_at).isSome ∧
      (applyOps e0 ops).retry_count = countFailed ops := by
  constructor
  · exact applyOps_completed_processed ops e0 (by rw [hfresh_status]; intro h; cases h) hcompleted
  · rw [applyOps_retry_count ops e0, hfresh_retry, Nat.zero_add]


/-- Witness for C4 at a concrete trace: one failure then completion gives a set
processed_at and retry_count 1. -/
theorem C4_completed_invariant_witness :
    ((applyOps
        { id := 0, event_type := .lead_created, source := "helena",
          payload := .opaque_ "p", occurred_at := 0, created_at := 0, updated_at := 0 }
        [.processing 1, .failed "boom" 2, .processing 3, .completed 4]).processed_at).isSome ∧
      (applyOps
        { id := 0, event_type := .lead_created, source := "helena",
          payload := .opaque_ "p", occurred_at := 0, created_at := 0, updated_at := 0 }
        [.processing 1, .failed "boom" 2, .processing 3, .completed 4]).retry_count =
        countFailed [.processing 1, .failed "boom" 2, .processing 3, .completed 4] :=
  C4_completed_invariant
    { id := 0, event_type := .lead_created, source := "helena",
      payload := .opaque_ "p", occurred_at := 0, created_at := 0, updated_at := 0 }
    [.processing 1, .failed "boom" 2, .processing 3, .completed 4]
    (by decide) (by decide) (by decide)

/-- C10: for every lead_created webhook whose payload parses as lead data and
whose helena_id matches no stored Lead, the Lead created by handle_lead_event
is classified hot exactly when some payload tag lower-cases to urgent, hot or
high_value, and warm in every other case (the referral branch also yields
warm); it is never cold. -/
theorem C10_classification_never_cold (p : HelenaWebhookPayload) (d : HelenaLeadData)
    (now : Int) (db : DB)
    (hdata : p.data = .leadData d)
    (htype : p.event_type = "lead_created")
    (hnew : db.leads.find? (fun l => l.helena_id == d.helena_id) = none) :
    ∃ db2 lead, handle_lead_event p now db = .ok (db2, lead) ∧
      lead.classification =
        (if (d.tags.getD []).any (fun t => ["urgent", "hot", "high_value"].contains t.toLower)
         then LeadClassification.hot else LeadClassification.warm) ∧
      lead.classification ≠ .cold := by
  simp only [handle_lead_event, helena_new_lead, hdata, htype, hnew, DB.fresh,
    Option.isNone_none, Bool.or_true, beq_self_eq_true, Bool.true_or]
  refine ⟨_, _, rfl, ?_, ?_⟩
  · show (if _ then LeadClassification.hot else if _ then .warm else .warm) = _
    split
    · rfl
    · split <;> rfl
  · show ¬ (if _ then LeadClassification.hot else if _ then .warm else .warm) = _
    split
    · decide
    · split <;> decide

/-- Witness for C10: a lead_created payload with tag "Urgent" on an empty
database creates a hot (hence non-cold) lead. -/
theorem C10_classification_never_cold_witness :
    ∃ db2 lead,
      handle_lead_event
        { event_type := "lead_created", timestamp := 5,
          data := .leadData
            { helena_id := "h1", first_name := "Ana", phone := "+55",
              tags := some ["Urgent"] },
          helena_lead_id := some "h1" } 7 {} = .ok (db2, lead) ∧
      lead.classification =
        (if ((some ["Urgent"] : Option (List String)).getD []).any
            (fun t => ["urgent", "hot", "high_value"].contains t.toLower)
         then LeadClassification.hot else LeadClassification.warm) ∧
      lead.classification ≠ .cold :=
  C10_classification_never_cold
    { event_type := "lead_created", timestamp := 5,
      data := .leadData
        { helena_id := "h1", first_name := "Ana", phone := "+55",
          tags := some ["Urgent"] },
      helena_lead_id := some "h1" }
    { helena_id := "h1", first_name := "Ana", phone := "+55", tags := some ["Urgent"] }
    7 {} rfl rfl rfl

theorem scan_function_calls_none (l : List VAPIFunctionCall)
    (h : ∀ fc ∈ l, fc.result = none) : scan_function_calls l = none := by
  induction l with
  | nil => rfl
  | cons fc rest ih =>
    have hfc : fc.result = none := h fc (List.mem_cons_self fc rest)
    have hrest : ∀ x ∈ rest, x.result = none := fun x hx => h x (List.mem_cons_of_mem fc hx)
    simp [scan_function_calls, hfc, pyTruthyDict, ih hrest]

/-- C9: the call-outcome classifier is order-dependent: with no function-call
results, a transcript containing both an appointment keyword and a callback
keyword classifies as appointment_booked (appointment keywords take priority),
and whenever any keyword list matches, the outcome does not depend on the
transcript's sentiment (sentiment is consulted only when no keyword list
matches). -/
theorem C9_outcome_priority (d : VAPICallData) (tr : VAPITranscript)
    (htr : d.transcript = some tr)
    (hfc : ∀ fc ∈ d.function_calls, fc.result = none) :
    ((appointment_keywords.any (fun k => strContains tr.text.toLower k)) = true →
      (callback_keywords.any (fun k => strContains tr.text.toLower k)) = true →
      determine_call_outcome d = .appointment_booked) ∧
    ((appointment_keywords.any (fun k => strContains tr.text.toLower k) ||
      callback_keywords.any (fun k => strContains tr.text.toLower k) ||
      not_interested_keywords.any (fun k => strContains tr.text.toLower k) ||
      interest_keywords.any (fun k => strContains tr.text.toLower k)) = true →
      ∀ s, determine_call_outcome
        { d with transcript := some { tr with sentiment := s } } =
        determine_call_outcome d) := by
  have hscan : scan_function_calls d.function_calls = none := scan_function_calls_none _ hfc
  constructor
  · intro h1 h2
    simp only [determine_call_outcome, hscan, htr]
    simp [h1]
  · intro hk s
    simp only [determine_call_outcome, hscan, htr]
    by_cases h1 : appointment_keywords.any (fun k => strContains tr.text.toLower k) = true
    · simp [h1]
    · simp only [Bool.not_eq_true] at h1
      by_cases h2 : callback_keywords.any (fun k => strContains tr.text.toLower k) = true
      · simp [h1, h2]
      · simp only [Bool.not_eq_true] at h2
        by_cases h3 :
            not_interested_keywords.any (fun k => strContains tr.text.toLower k) = true
        · simp [h1, h2, h3]
        · simp only [Bool.not_eq_true] at h3
          by_cases h4 : interest_keywords.any (fun k => strContains tr.text.toLower k) = true
          · simp [h1, h2, h3, h4]
          · simp only [Bool.not_eq_true] at h4
            rw [h1, h2, h3, h4] at hk
            simp at hk

/-- Witness for C9: a transcript containing both "book appointment" and
"call me back", with no function-call results and negative sentiment,
classifies as appointment_booked, and changing the sentiment changes nothing. -/
theorem C9_outcome_priority_witness :
    (appointment_keywords.any (fun k =>
        strContains ("ok, please book appointment or call me back").toLower k) = true →
      callback_keywords.any (fun k =>
        strContains ("ok, please book appointment or call me back").toLower k) = true →
      determine_call_outcome
        { call_id := "c1", status := "ended", duration := some 60,
          transcript := some
            { text := "ok, please book appointment or call me back",
              sentiment := some "negative" } } = .appointment_booked) ∧
    ((appointment_keywords.any (fun k =>
        strContains ("ok, please book appointment or call me back").toLower k) ||
      callback_keywords.any (fun k =>
        strContains ("ok, please book appointment or call me back").toLower k) ||
      not_interested_keywords.any (fun k =>
        strContains ("ok, please book appointment or call me back").toLower k) ||
      interest_keywords.any (fun k =>
        strContains ("ok, please book appointment or call me back").toLower k)) = true →
      ∀ s, determine_call_outcome
        { call_id := "c1", status := "ended", duration := some 60,
          transcript := some
            { text := "ok, please book appointment or call me back",
              sentiment := s } } = determine_call_outcome
        { call_id := "c1", status := "ended", duration := some 60,
          transcript := some
            { text := "ok, please book appointment or call me back",
              sentiment := some "negative" } }) :=
  C9_outcome_priority
    { call_id := "c1", status := "ended", duration := some 60,
      transcript := some
        { text := "ok, please book appointment or call me back",
          sentiment := some "negative" } }
    { text := "ok, please book appointment or call me back", sentiment := some "negative" }
    rfl (by intro fc hfc; simp at hfc)

/-- C7: for an Appointment 30h out, the reminder-scheduling job registers
exactly two delayed jobs — the 24h reminder at now+6h (whatsapp) and the 3h
reminder at now+27h (voice) — and for an Appointment already in the past it
registers neither. -/
theorem C7_reminder_scheduling (aid : Nat) (a : Appointment) (now : Int) (db : DB)
    (hfind : db.appointments.find? (fun x => some x.id == some aid) = some a) :
    (a.scheduled_date = now + 30 * 3600 →
      schedule_appointment_reminders (some aid) now db =
        ({ db with scheduled := db.scheduled ++
            [{ run_at := now + 6 * 3600,
               job := { queue := .default, func := "send_appointment_reminder",
                        appointment_id := some a.id, reminder_type := some "24h",
                        channel := some "whatsapp" } },
             { run_at := now + 27 * 3600,
               job := { queue := .default, func := "send_appointment_reminder",
                        appointment_id := some a.id, reminder_type := some "3h",
                        channel := some "voice" } }] }, .success)) ∧
    (a.scheduled_date < now →
      schedule_appointment_reminders (some aid) now db = (db, .success)) := by
  constructor
  · intro h30
    simp only [schedule_appointment_reminders, hfind]
    have e1 : a.scheduled_date - 24 * 3600 = now + 6 * 3600 := by rw [h30]; ring
    have e2 : a.scheduled_date - 3 * 3600 = now + 27 * 3600 := by rw [h30]; ring
    rw [e1, e2]
    rw [if_pos (by omega : now + 6 * 3600 > now), if_pos (by omega : now + 27 * 3600 > now)]
    simp [DB.enqueue_at]
  · intro hpast
    simp only [schedule_appointment_reminders, hfind]
    rw [if_neg (by omega : ¬ a.scheduled_date - 24 * 3600 > now),
        if_neg (by omega : ¬ a.scheduled_date - 3 * 3600 > now)]

/-- Witness for C7: a 30h-out appointment gets exactly the two delayed
reminder jobs; a past appointment gets none. -/
theorem C7_reminder_scheduling_witness :
    (schedule_appointment_reminders (some 1) 1000
      { appointments := [{ id := 1, lead_id := 0, scheduled_date := 1000 + 30 * 3600,
                           professional_id := "p", clinic_id := "c", created_at := 0 }] } =
      ({ appointments := [{ id := 1, lead_id := 0, scheduled_date := 1000 + 30 * 3600,
                            professional_id := "p", clinic_id := "c", created_at := 0 }],
         scheduled :=
            [{ run_at := 1000 + 6 * 3600,
               job := { queue := .default, func := "send_appointment_reminder",
                        appointment_id := some 1, reminder_type := some "24h",
                        channel := some "whatsapp" } },
             { run_at := 1000 + 27 * 3600,
               job := { queue := .default, func := "send_appointment_reminder",
                        appointment_id := some 1, reminder_type := some "3h",
                        channel := some "voice" } }] }, .success)) ∧
    (schedule_appointment_reminders (some 2) 1000
      { appointments := [{ id := 2, lead_id := 0, scheduled_date := 500,
                           professional_id := "p", clinic_id := "c", created_at := 0 }] } =
      ({ appointments := [{ id := 2, lead_id := 0, scheduled_date := 500,
                            professional_id := "p", clinic_id := "c", created_at := 0 }] },
       .success)) :=
  ⟨(C7_reminder_scheduling 1
      { id := 1, lead_id := 0, scheduled_date := 1000 + 30 * 3600,
        professional_id := "p", clinic_id := "c", created_at := 0 } 1000
      { appointments := [{ id := 1, lead_id := 0, scheduled_date := 1000 + 30 * 3600,
                           professional_id := "p", clinic_id := "c", created_at := 0 }] }
      rfl).1 rfl,
   (C7_reminder_scheduling 2
      { id := 2, lead_id := 0, scheduled_date := 500,
        professional_id := "p", clinic_id := "c", created_at := 0 } 1000
      { appointments := [{ id := 2, lead_id := 0, scheduled_date := 500,
                           professional_id := "p", clinic_id := "c", created_at := 0 }] }
      rfl).2 (by decide)⟩

/-- C8: send_appointment_reminder does NOT re-check the appointment's state at
execution time: for a CANCELLED appointment far in the past (so the model's
own needs_24h_reminder guard is false), the job still marks it REMINDED, sets
reminder_sent_24h, and reports success — it is not a no-op on stale state. -/
theorem C8_stale_reminder_still_marks :
    (Appointment.needs_24h_reminder
      { id := 1, lead_id := 0, scheduled_date := 500, status := .cancelled,
        cancelled_at := some 600, professional_id := "p", clinic_id := "c",
        created_at := 0 } 1000 = false) ∧
    (send_appointment_reminder (some 1) "24h" "whatsapp" 1000
      { appointments := [{ id := 1, lead_id := 0, scheduled_date := 500,
                           status := .cancelled, cancelled_at := some 600,
                           professional_id := "p", clinic_id := "c", created_at := 0 }] } =
      ({ appointments := [{ id := 1, lead_id := 0, scheduled_date := 500,
                            status := .reminded, reminded_at := some 1000,
                            reminder_sent_24h := true, cancelled_at := some 600,
                            professional_id := "p", clinic_id := "c", created_at := 0 }] },
       .success)) ∧
    AppointmentStatus.reminded ≠ AppointmentStatus.cancelled := by
  refine ⟨by decide, ?_, by decide⟩
  decide

/-- Counterexample to C2 as stated: a lead_created Event for a hot lead that
already carries the initiate_hot_lead_sequence triggered action gets the
hot-lead call job enqueued TWICE — once by handle_lead_created and once by
the triggered-action dispatch loop — not exactly once. -/
theorem C2_counterexample :
    (let lead : Lead :=
      { id := 1, helena_id := "h1", first_name := "Ana", phone := "+55",
        tags := ["urgent"], created_at := 0, updated_at := 0 }
     let ev : Event :=
      { id := 10, event_type := .lead_created, source := "helena",
        payload := .opaque_ "x", lead_id := some 1,
        triggers_actions := [{ type := "initiate_hot_lead_sequence",
                               data := { lead_id := some 1 }, added_at := 0 }],
        occurred_at := 0, created_at := 0, updated_at := 0 }
     let db : DB := { leads := [lead], events := [ev], nextId := 11 }
     ((process_orchestration_event 10 "corr" noFailures 100 db).1.jobs.filter
        (fun j => j.func == "initiate_hot_lead_call")).length = 2 ∧
     ¬ ((process_orchestration_event 10 "corr" noFailures 100 db).1.jobs.filter
        (fun j => j.func == "initiate_hot_lead_call")).length = 1) := by
  exact ⟨by decide, by decide⟩

/-- C2 amended: the type-specific handler does not consult the Event's own
triggers_actions at all — for every lead_created Event of a hot lead carrying
an initiate_hot_lead_sequence triggered action, processing enqueues the
hot-lead call job exactly twice (once by the handler, once by the
triggered-action dispatch loop). -/
theorem C2_handler_duplicates_hot_lead_call (db : DB) (eid : Nat) (corr : String)
    (now t : Int) (adata : ActionData) (ev : Event) (lead : Lead)
    (hfind : db.events.find? (fun e => e.id == eid) = some ev)
    (htype : ev.event_type = .lead_created)
    (hacts : ev.triggers_actions =
      [{ type := "initiate_hot_lead_sequence", data := adata, added_at := t }])
    (hlead : db.leads.find? (fun l => some l.id == ev.lead_id) = some lead)
    (hhot : lead.is_hot_lead = true) :
    ((process_orchestration_event eid corr noFailures now db).1.jobs.filter
        (fun j => j.func == "initiate_hot_lead_call")).length =
      (db.jobs.filter (fun j => j.func == "initiate_hot_lead_call")).length + 2 := by
  simp only [process_orchestration_event, hfind, noFailures]
  simp only [Event.mark_processing, DB.replaceEvent]
  simp only [htype, hacts, hlead, beq_self_eq_true, if_true]
  simp only [dispatch_handler, run_triggered_actions, handle_lead_created, hlead, hhot,
    if_true, DB.enqueue, List.isEmpty_cons, Bool.not_false, List.enum, List.enumFrom,
    List.foldl, run_triggered_action, execute_triggered_action, beq_self_eq_true,
    DB.addLog, Event.mark_completed, DB.replaceEvent]
  simp [List.filter_append]

/-- Witness for the amended C2 at the concrete counterexample input. -/
theorem C2_handler_duplicates_hot_lead_call_witness :
    ((process_orchestration_event 10 "corr" noFailures 100
        { leads := [{ id := 1, helena_id := "h1", first_name := "Ana", phone := "+55",
                      tags := ["urgent"], created_at := 0, updated_at := 0 }],
          events := [{ id := 10, event_type := .lead_created, source := "helena",
                       payload := .opaque_ "x", lead_id := some 1,
                       triggers_actions := [{ type := "initiate_hot_lead_sequence",
                                              data := { lead_id := some 1 }, added_at := 0 }],
                       occurred_at := 0, created_at := 0, updated_at := 0 }],
          nextId := 11 }).1.jobs.filter
        (fun j => j.func == "initiate_hot_lead_call")).length =
      (((({} : DB) : DB).jobs.filter (fun j => j.func == "initiate_hot_lead_call")).length + 2) :=
  C2_handler_duplicates_hot_lead_call
    { leads := [{ id := 1, helena_id := "h1", first_name := "Ana", phone := "+55",
                  tags := ["urgent"], created_at := 0, updated_at := 0 }],
      events := [{ id := 10, event_type := .lead_created, source := "helena",
                   payload := .opaque_ "x", lead_id := some 1,
                   triggers_actions := [{ type := "initiate_hot_lead_sequence",
                                          data := { lead_id := some 1 }, added_at := 0 }],
                   occurred_at := 0, created_at := 0, updated_at := 0 }],
      nextId := 11 }
    10 "corr" 100 0 { lead_id := some 1 }
    { id := 10, event_type := .lead_created, source := "helena",
      payload := .opaque_ "x", lead_id := some 1,
      triggers_actions := [{ type := "initiate_hot_lead_sequence",
                             data := { lead_id := some 1 }, added_at := 0 }],
      occurred_at := 0, created_at := 0, updated_at := 0 }
    { id := 1, helena_id := "h1", first_name := "Ana", phone := "+55",
      tags := ["urgent"], created_at := 0, updated_at := 0 }
    rfl rfl rfl rfl (by decide)

theorem handle_lead_created_events (event : Event) (corr : String) (now : Int) (db : DB) :
    (handle_lead_created event corr now db).1.events = db.events := by
  unfold handle_lead_created
  repeat' split
  all_goals simp [DB.enqueue, DB.enqueue_at]

theorem handle_lead_stage_changed_events (event : Event) (corr : String) (now : Int)
    (db : DB) : (handle_lead_stage_changed event corr now db).1.events = db.events := by
  unfold handle_lead_stage_changed
  repeat' split
  all_goals simp [DB.enqueue, DB.enqueue_at]

theorem handle_lead_tag_added_events (event : Event) (corr : String) (now : Int)
    (db : DB) : (handle_lead_tag_added event corr now db).1.events = db.events := by
  unfold handle_lead_tag_added
  repeat' split
  all_goals simp [DB.enqueue, DB.replaceLead]

theorem handle_message_received_events (event : Event) (corr : String) (now : Int)
    (db : DB) : (handle_message_received event corr now db).1.events = db.events := by
  unfold handle_message_received
  repeat' split
  all_goals simp [DB.enqueue]

theorem handle_call_completed_events (event : Event) (corr : String) (now : Int)
    (db : DB) : (handle_call_completed event corr now db).1.events = db.events := by
  unfold handle_call_completed
  repeat' split
  all_goals simp [DB.enqueue, DB.enqueue_at]

theorem handle_appointment_booked_events (event : Event) (corr : String) (now : Int)
    (db : DB) : (handle_appointment_booked event corr now db).1.events = db.events := by
  unfold handle_appointment_booked
  split
  · rfl
  next appointment heq =>
    cases hl : db.leads.find? (fun l => l.id == appointment.lead_id) <;>
      simp [DB.enqueue, DB.replaceLead, hl]

theorem handle_appointment_no_show_events (event : Event) (corr : String) (now : Int)
    (db : DB) : (handle_appointment_no_show event corr now db).1.events = db.events := by
  unfold handle_appointment_no_show
  repeat' split
  all_goals simp [DB.enqueue]

theorem execute_triggered_action_events (a : TriggeredAction) (corr : String)
    (exn : Option String) (db : DB) :
    (execute_triggered_action a corr exn db).1.events = db.events := by
  simp only [execute_triggered_action]
  cases exn <;> (try split_ifs) <;> simp [DB.enqueue]

theorem run_triggered_action_events (corr : String) (oracle : ExnOracle)
    (acc : DB × List ActionResult) (ia : Nat × TriggeredAction) :
    (run_triggered_action corr oracle acc ia).1.events = acc.1.events := by
  simp only [run_triggered_action]
  split <;> simp [execute_triggered_action_events]

theorem foldl_run_triggered_action_events (corr : String) (oracle : ExnOracle)
    (l : List (Nat × TriggeredAction)) :
    ∀ acc : DB × List ActionResult,
      (l.foldl (run_triggered_action corr oracle) acc).1.events = acc.1.events := by
  induction l with
  | nil => intro acc; rfl
  | cons x xs ih => intro acc; rw [List.foldl_cons, ih, run_triggered_action_events]

theorem run_triggered_actions_events (event : Event) (corr : String)
    (oracle : ExnOracle) (handled : DB × List ActionResult) :
    (run_triggered_actions event corr oracle handled).1.events = handled.1.events := by
  unfold run_triggered_actions
  split
  · rw [foldl_run_triggered_action_events]
  · rfl

theorem dispatch_handler_events (event : Event) (corr : String) (now : Int) (db : DB) :
    (dispatch_handler event corr now db).1.events = db.events := by
  unfold dispatch_handler
  repeat' split
  all_goals
    simp [handle_lead_created_events, handle_lead_stage_changed_events,
      handle_lead_tag_added_events, handle_message_received_events,
      handle_call_completed_events, handle_appointment_booked_events,
      handle_appointment_no_show_events]

theorem map_replace_replace (l : List Event) (k : Nat) (v w : Event)
    (hv : v.id = k) :
    (l.map (fun x => if x.id == k then v else x)).map (fun x => if x.id == k then w else x) =
      l.map (fun x => if x.id == k then w else x) := by
  rw [List.map_map]
  congr 1
  funext x
  by_cases hx : x.id = k
  · have hb : (x.id == k) = true := by simp [hx]
    simp [Function.comp, hb, hv]
  · have hb : (x.id == k) = false := by simp [hx]
    simp [Function.comp, hb]

/-- Counterexample to C3 as stated: an exception raised inside triggered-action
execution (here, the enqueue of the event's initiate_hot_lead_sequence action
failing) is caught by execute_triggered_action itself and recorded in the
action result, so the Event is NOT marked failed: it completes with
retry_count 0 and the run reports success. -/
theorem C3_counterexample :
    (let ev : Event :=
      { id := 20, event_type := .lead_updated, source := "helena",
        payload := .opaque_ "x", lead_id := some 1,
        triggers_actions := [{ type := "initiate_hot_lead_sequence",
                               data := { lead_id := some 1 }, added_at := 0 }],
        occurred_at := 0, created_at := 0, updated_at := 0 }
     let db : DB := { events := [ev], nextId := 21 }
     let oracle : ExnOracle := { actionExn := fun _ => some "redis connection refused" }
     ((process_orchestration_event 20 "corr" oracle 100 db).1.events.map
        Event.status = [.completed]) ∧
     ((process_orchestration_event 20 "corr" oracle 100 db).1.events.map
        Event.retry_count = [0]) ∧
     ((process_orchestration_event 20 "corr" oracle 100 db).2 =
        .ok [{ action := "initiate_hot_lead_sequence",
               error := some "redis connection refused" }]) ∧
     EventStatus.completed ≠ EventStatus.failed) := by
  exact ⟨by decide, by decide, by decide, by decide⟩

/-- C3 corrected: (1) an exception raised during the type-specific handler
dispatch is caught by process_orchestration_event: the Event is marked failed
with failed_at set, retry_count incremented by exactly one and error_message
recorded, an error log entry is persisted, nothing is enqueued by the failure
path (no automatic re-enqueue of the Event), and the error is returned rather
than propagated; but (2) an exception inside triggered-action execution never
reaches that handler — whatever the triggered-action failures, the run
reports success and the Event is marked completed with retry_count
unchanged. -/
theorem C3_exception_handling :
    (∀ (db : DB) (eid : Nat) (corr msg : String) (now : Int) (oracle : ExnOracle)
        (ev : Event),
      db.events.find? (fun e => e.id == eid) = some ev →
      oracle.handlerExn = some msg →
      (process_orchestration_event eid corr oracle now db).2 = .errorResult msg ∧
      (process_orchestration_event eid corr oracle now db).1.events =
        db.events.map (fun x =>
          if x.id == ev.id then (ev.mark_processing now).mark_failed msg now else x) ∧
      (process_orchestration_event eid corr oracle now db).1.jobs = db.jobs ∧
      (process_orchestration_event eid corr oracle now db).1.scheduled = db.scheduled ∧
      (process_orchestration_event eid corr oracle now db).1.logs =
        db.logs ++ [Log.create_error_log "orchestrator"
          ("Failed to process event " ++ toString eid ++ ": " ++ msg)] ∧
      ((ev.mark_processing now).mark_failed msg now).status = .failed ∧
      ((ev.mark_processing now).mark_failed msg now).retry_count = ev.retry_count + 1 ∧
      ((ev.mark_processing now).mark_failed msg now).error_message = some msg ∧
      ((ev.mark_processing now).mark_failed msg now).failed_at = some now) ∧
    (∀ (db : DB) (eid : Nat) (corr : String) (now : Int) (oracle : ExnOracle) (ev : Event),
      db.events.find? (fun e => e.id == eid) = some ev →
      oracle.handlerExn = none →
      (∃ acts, (process_orchestration_event eid corr oracle now db).2 = .ok acts) ∧
      (process_orchestration_event eid corr oracle now db).1.events =
        db.events.map (fun x =>
          if x.id == ev.id then (ev.mark_processing now).mark_completed now else x) ∧
      ((ev.mark_processing now).mark_completed now).status = .completed ∧
      ((ev.mark_processing now).mark_completed now).retry_count = ev.retry_count) := by
  constructor
  · intro db eid corr msg now oracle ev hfind hexn
    refine ⟨?_, ?_, ?_, ?_, ?_, ?_, ?_, ?_, ?_⟩
    all_goals try simp only [process_orchestration_event]
    all_goals try simp only [hfind]
    all_goals try simp only [hexn]
    all_goals try simp only [DB.replaceEvent, DB.addLog]
    all_goals try simp only [Event.mark_processing, Event.mark_failed]
    all_goals try rfl
    all_goals exact map_replace_replace db.events ev.id _ _ rfl
  · intro db eid corr now oracle ev hfind hexn
    refine ⟨?_, ?_, rfl, rfl⟩
    · simp only [process_orchestration_event]
      simp only [hfind]
      simp only [hexn]
      exact ⟨_, rfl⟩
    · simp only [process_orchestration_event]
      simp only [hfind]
      simp only [hexn]
      simp only [DB.replaceEvent, DB.addLog]
      simp only [Event.mark_processing, Event.mark_completed]
      rw [run_triggered_actions_events, dispatch_handler_events]
      exact map_replace_replace db.events ev.id _ _ rfl

/-- Witness for C3: a handler-dispatch exception yields the error result; with
no handler exception the run reports success. -/
theorem C3_exception_handling_witness :
    ((process_orchestration_event 0 "c" { handlerExn := some "db down" } 5
        { events := [{ id := 0, event_type := .lead_updated, source := "s",
                       payload := .opaque_ "x", occurred_at := 0, created_at := 0,
                       updated_at := 0 }], nextId := 1 }).2 =
      .errorResult "db down") ∧
    (∃ acts, (process_orchestration_event 0 "c" {} 5
        { events := [{ id := 0, event_type := .lead_updated, source := "s",
                       payload := .opaque_ "x", occurred_at := 0, created_at := 0,
                       updated_at := 0 }], nextId := 1 }).2 = .ok acts) :=
  ⟨(C3_exception_handling.1
      { events := [{ id := 0, event_type := .lead_updated, source := "s",
                     payload := .opaque_ "x", occurred_at := 0, created_at := 0,
                     updated_at := 0 }], nextId := 1 }
      0 "c" "db down" 5 { handlerExn := some "db down" }
      { id := 0, event_type := .lead_updated, source := "s",
        payload := .opaque_ "x", occurred_at := 0, created_at := 0, updated_at := 0 }
      rfl rfl).1,
   (C3_exception_handling.2
      { events := [{ id := 0, event_type := .lead_updated, source := "s",
                     payload := .opaque_ "x", occurred_at := 0, created_at := 0,
                     updated_at := 0 }], nextId := 1 }
      0 "c" 5 {}
      { id := 0, event_type := .lead_updated, source := "s",
        payload := .opaque_ "x", occurred_at := 0, created_at := 0, updated_at := 0 }
      rfl rfl).1⟩

theorem Call.id_ite (b : Prop) (inst : Decidable b) (x y : Call) :
    (if b then x else y).id = if b then x.id else y.id := by
  split <;> rfl

theorem Call.vapi_call_id_ite (b : Prop) (inst : Decidable b) (x y : Call) :
    (if b then x else y).vapi_call_id = if b then x.vapi_call_id else y.vapi_call_id := by
  split <;> rfl

theorem Call.lead_id_ite (b : Prop) (inst : Decidable b) (x y : Call) :
    (if b then x else y).lead_id = if b then x.lead_id else y.lead_id := by
  split <;> rfl

theorem Call.outcome_ite (b : Prop) (inst : Decidable b) (x y : Call) :
    (if b then x else y).outcome = if b then x.outcome else y.outcome := by
  split <;> rfl

/-- On a call-ended payload (no function-call records to append, no metadata to
merge), update_call_from_vapi_event keeps the call's identity fields and sets
the outcome to the classified outcome. -/
theorem update_call_fields (c : Call) (p : VAPIWebhookPayload) (now : Int)
    (htype : p.event_type = "call-ended")
    (hfc : p.data.function_calls = [])
    (hmeta : p.data.metadata = []) :
    (update_call_from_vapi_event c p now).id = c.id ∧
    (update_call_from_vapi_event c p now).vapi_call_id = c.vapi_call_id ∧
    (update_call_from_vapi_event c p now).lead_id = c.lead_id ∧
    (update_call_from_vapi_event c p now).outcome =
      some (determine_call_outcome p.data) := by
  cases htr : p.data.transcript <;> cases hdur : p.data.duration <;>
    refine ⟨?_, ?_, ?_, ?_⟩ <;>
    simp [update_call_from_vapi_event, htype, hfc, hmeta, htr, hdur,
      Call.mark_completed, Call.update_transcript, Call.id_ite, Call.vapi_call_id_ite,
      Call.lead_id_ite, Call.outcome_ite]

theorem vapi_derive_actions_event_type (p : VAPIWebhookPayload) (uc : Call) (now : Int)
    (e : Event) : (vapi_derive_actions p uc now e).event_type = e.event_type := by
  unfold vapi_derive_actions
  split_ifs <;> simp [Event.add_triggered_action]

theorem vapi_derive_actions_idempotency_key (p : VAPIWebhookPayload) (uc : Call)
    (now : Int) (e : Event) :
    (vapi_derive_actions p uc now e).idempotency_key = e.idempotency_key := by
  unfold vapi_derive_actions
  split_ifs <;> simp [Event.add_triggered_action]

/-- Counterexample to C5 as stated: delivering the same call-ended payload
(call_id "X") twice is NOT recognized as a duplicate — afterwards two Events
of type call_completed exist (not exactly one), and both carry a NULL
idempotency key, so no collision is possible. -/
theorem C5_counterexample :
    (let p : VAPIWebhookPayload :=
      { event_type := "call-ended", timestamp := 0,
        data := { call_id := "X", status := "ended", duration := some 120 } }
     let db0 : DB :=
      { calls := [{ id := 3, vapi_call_id := some "X", lead_id := 1,
                    direction := .outbound, created_at := 0 }], nextId := 4 }
     let db2 := (vapi_callback p "c2" 20 (vapi_callback p "c1" 10 db0).1).1
     (db2.events.filter (fun e => e.event_type == .call_completed)).length = 2 ∧
     ¬ ((db2.events.filter (fun e => e.event_type == .call_completed)).length = 1) ∧
     db2.events.map Event.idempotency_key = [none, none]) := by
  exact ⟨by decide, by decide, by decide⟩

/-- C5 amended: the voice-callback pipeline performs no deduplication at all —
each delivery of a call-ended payload whose call record resolves appends one
more call_completed Event, every such Event carries a NULL idempotency key
(Event.create_lead_event never sets one), and the Call's outcome is
(re)written to the classified outcome on every delivery. -/
theorem C5_no_dedup_two_events (p : VAPIWebhookPayload) (c : Call) (db : DB)
    (corr1 corr2 : String) (now1 now2 : Int)
    (hcalls : db.calls = [c])
    (hv : (c.vapi_call_id == some p.data.call_id) = true)
    (htype : p.event_type = "call-ended")
    (hfc : p.data.function_calls = [])
    (hmeta : p.data.metadata = []) :
    ∃ e1 e2 : Event,
      (vapi_callback p corr1 now1 db).1.events = db.events ++ [e1] ∧
      (vapi_callback p corr2 now2 (vapi_callback p corr1 now1 db).1).1.events =
        (vapi_callback p corr1 now1 db).1.events ++ [e2] ∧
      e1.event_type = .call_completed ∧ e2.event_type = .call_completed ∧
      e1.idempotency_key = none ∧ e2.idempotency_key = none ∧
      ∃ c2 : Call,
        (vapi_callback p corr2 now2 (vapi_callback p corr1 now1 db).1).1.calls = [c2] ∧
        c2.outcome = some (determine_call_outcome p.data) := by
  obtain ⟨hid1, hvci1, hlid1, hout1⟩ := update_call_fields c p now1 htype hfc hmeta
  have hf1 : db.calls.find? (fun x => x.vapi_call_id == some p.data.call_id) = some c := by
    rw [hcalls]; exact List.find?_cons_of_pos _ hv
  simp only [vapi_callback, hf1]
  simp only [DB.replaceCall, hcalls, List.map_cons, List.map_nil, hid1, beq_self_eq_true,
    if_true]
  simp only [htype, vapi_event_type_mapping]
  simp only [String.reduceBEq, if_true, if_false, Bool.false_eq_true]
  simp only [DB.fresh, enqueue_orchestration_job, DB.enqueue, DB.addLog]
  have hf2 : List.find? (fun x => x.vapi_call_id == some p.data.call_id)
      [update_call_from_vapi_event c p now1] =
      some (update_call_from_vapi_event c p now1) :=
    List.find?_cons_of_pos _ (by rw [hvci1]; exact hv)
  obtain ⟨hid2, hvci2, hlid2, hout2⟩ :=
    update_call_fields (update_call_from_vapi_event c p now1) p now2 htype hfc hmeta
  try simp only [hf2]
  try simp only [DB.replaceCall, List.map_cons, List.map_nil, hid2, beq_self_eq_true,
    if_true]
  try simp only [String.reduceBEq, if_true, if_false, Bool.false_eq_true]
  try simp only [DB.fresh, enqueue_orchestration_job, DB.enqueue, DB.addLog]
  refine ⟨_, _, rfl, rfl, ?_, ?_, ?_, ?_, ⟨_, rfl, ?_⟩⟩
  · rw [vapi_derive_actions_event_type]; rfl
  · rw [vapi_derive_actions_event_type]; rfl
  · rw [vapi_derive_actions_idempotency_key]; rfl
  · rw [vapi_derive_actions_idempotency_key]; rfl
  · exact hout2

/-- Witness for the amended C5 at the concrete duplicate-delivery input. -/
theorem C5_no_dedup_two_events_witness :
    ∃ e1 e2 : Event,
      (vapi_callback
        { event_type := "call-ended", timestamp := 0,
          data := { call_id := "X", status := "ended", duration := some 120 } } "c1" 10
        { calls := [{ id := 3, vapi_call_id := some "X", lead_id := 1,
                      direction := .outbound, created_at := 0 }],
          nextId := 4 }).1.events =
        ({ calls := [{ id := 3, vapi_call_id := some "X", lead_id := 1,
                       direction := .outbound, created_at := 0 }],
           nextId := 4 } : DB).events ++ [e1] ∧
      (vapi_callback
        { event_type := "call-ended", timestamp := 0,
          data := { call_id := "X", status := "ended", duration := some 120 } } "c2" 20
        (vapi_callback
          { event_type := "call-ended", timestamp := 0,
            data := { call_id := "X", status := "ended", duration := some 120 } } "c1" 10
          { calls := [{ id := 3, vapi_call_id := some "X", lead_id := 1,
                        direction := .outbound, created_at := 0 }],
            nextId := 4 }).1).1.events =
        (vapi_callback
          { event_type := "call-ended", timestamp := 0,
            data := { call_id := "X", status := "ended", duration := some 120 } } "c1" 10
          { calls := [{ id := 3, vapi_call_id := some "X", lead_id := 1,
                        direction := .outbound, created_at := 0 }],
            nextId := 4 }).1.events ++ [e2] ∧
      e1.event_type = .call_completed ∧ e2.event_type = .call_completed ∧
      e1.idempotency_key = none ∧ e2.idempotency_key = none ∧
      ∃ c2 : Call,
        (vapi_callback
          { event_type := "call-ended", timestamp := 0,
            data := { call_id := "X", status := "ended", duration := some 120 } } "c2" 20
          (vapi_callback
            { event_type := "call-ended", timestamp := 0,
              data := { call_id := "X", status := "ended", duration := some 120 } } "c1" 10
            { calls := [{ id := 3, vapi_call_id := some "X", lead_id := 1,
                          direction := .outbound, created_at := 0 }],
              nextId := 4 }).1).1.calls = [c2] ∧
        c2.outcome = some (determine_call_outcome
          ({ call_id := "X", status := "ended", duration := some 120 } : VAPICallData)) :=
  C5_no_dedup_two_events
    { event_type := "call-ended", timestamp := 0,
      data := { call_id := "X", status := "ended", duration := some 120 } }
    { id := 3, vapi_call_id := some "X", lead_id := 1,
      direction := .outbound, created_at := 0 }
    { calls := [{ id := 3, vapi_call_id := some "X", lead_id := 1,
                  direction := .outbound, created_at := 0 }], nextId := 4 }
    "c1" "c2" 10 20 rfl (by decide) rfl rfl rfl

/-- Counterexample to C6 as stated: for a message_received webhook whose
external lead id matches no stored Lead, the ingestion call indeed creates no
Message — but it records NO error-class log entry, reports plain success (not
a resolution error), and DOES persist a dangling Event (lead_id NULL). -/
theorem C6_counterexample :
    (let p : HelenaWebhookPayload :=
      { event_type := "message_received", timestamp := 0,
        data := .messageData
          { helena_message_id := "m1", helena_lead_id := "L404",
            content := "oi", direction := "inbound" },
        helena_lead_id := some "L404", idempotency_key := some "k1" }
     let res := helena_webhook p "corr" 5 {}
     res.1.messages = [] ∧
     res.1.events.length = 1 ∧
     ¬ (res.1.events.length = 0) ∧
     (res.1.logs.filter (fun l => l.level == .error)).length = 0 ∧
     res.2 = .success 0 "corr" ∧
     res.1.events.map Event.lead_id = [none]) := by
  exact ⟨by decide, by decide, by decide, by decide, by decide, by decide⟩

/-- C6 amended: for every message_received webhook whose external lead id
matches no stored Lead (and whose idempotency key is fresh), the ingestion
call creates no Message, but it records no error-class log entry, reports
success, and persists an Event with a NULL lead reference carrying a
process_inbound_message triggered action whose lead_id is None. -/
theorem C6_unresolved_message (p : HelenaWebhookPayload) (m : HelenaMessageData) (db : DB)
    (corr : String) (now : Int)
    (hdata : p.data = .messageData m)
    (htype : p.event_type = "message_received")
    (hnolead : db.leads.find? (fun l => l.helena_id == m.helena_lead_id) = none)
    (hnodup : db.events.find?
      (fun e => e.idempotency_key == some (helena_resolved_key p)) = none) :
    ∃ ev : Event,
      (helena_webhook p corr now db).2 = .success db.nextId corr ∧
      (helena_webhook p corr now db).1.messages = db.messages ∧
      (helena_webhook p corr now db).1.events = db.events ++ [ev] ∧
      ev.lead_id = none ∧ ev.event_type = .message_received ∧
      ev.triggers_actions = [{ type := "process_inbound_message",
                               data := { lead_id := none }, added_at := now }] ∧
      ev.idempotency_key = some (helena_resolved_key p) ∧
      ((helena_webhook p corr now db).1.logs.filter (fun l => l.level == .error)).length =
        (db.logs.filter (fun l => l.level == .error)).length := by
  simp only [helena_webhook, hnodup]
  simp only [process_helena_event, htype]
  simp only [helena_event_mapping, String.reduceBEq, if_true, if_false,
    Bool.false_eq_true, List.contains, List.elem, Bool.or_false, Bool.false_or]
  simp only [handle_message_event, hdata, hnolead]
  simp only [DB.fresh, beq_self_eq_true, if_true, Event.create_from_webhook,
    Event.add_triggered_action, enqueue_orchestration_job, DB.enqueue, DB.addLog,
    Log.create_webhook_log]
  refine ⟨_, trivial, trivial, rfl, rfl, rfl, rfl, rfl, ?_⟩
  have h : (LogLevel.info == LogLevel.error) = false := rfl
  simp [List.filter_append, h]

/-- Witness for the amended C6 at the concrete unknown-lead input. -/
theorem C6_unresolved_message_witness :
    ∃ ev : Event,
      (helena_webhook
        { event_type := "message_received", timestamp := 0,
          data := .messageData
            { helena_message_id := "m1", helena_lead_id := "L404",
              content := "oi", direction := "inbound" },
          helena_lead_id := some "L404", idempotency_key := some "k1" } "c" 5 {}).2 =
        .success 0 "c" ∧
      (helena_webhook
        { event_type := "message_received", timestamp := 0,
          data := .messageData
            { helena_message_id := "m1", helena_lead_id := "L404",
              content := "oi", direction := "inbound" },
          helena_lead_id := some "L404", idempotency_key := some "k1" } "c" 5
        {}).1.messages = [] ∧
      (helena_webhook
        { event_type := "message_received", timestamp := 0,
          data := .messageData
            { helena_message_id := "m1", helena_lead_id := "L404",
              content := "oi", direction := "inbound" },
          helena_lead_id := some "L404", idempotency_key := some "k1" } "c" 5
        {}).1.events = [] ++ [ev] ∧
      ev.lead_id = none ∧ ev.event_type = .message_received ∧
      ev.triggers_actions = [{ type := "process_inbound_message",
                               data := { lead_id := none }, added_at := 5 }] ∧
      ev.idempotency_key = some (helena_resolved_key
        { event_type := "message_received", timestamp := 0,
          data := .messageData
            { helena_message_id := "m1", helena_lead_id := "L404",
              content := "oi", direction := "inbound" },
          helena_lead_id := some "L404", idempotency_key := some "k1" }) ∧
      ((helena_webhook
        { event_type := "message_received", timestamp := 0,
          data := .messageData
            { helena_message_id := "m1", helena_lead_id := "L404",
              content := "oi", direction := "inbound" },
          helena_lead_id := some "L404", idempotency_key := some "k1" } "c" 5
        {}).1.logs.filter (fun l => l.level == .error)).length = 0 :=
  C6_unresolved_message
    { event_type := "message_received", timestamp := 0,
      data := .messageData
        { helena_message_id := "m1", helena_lead_id := "L404",
          content := "oi", direction := "inbound" },
      helena_lead_id := some "L404", idempotency_key := some "k1" }
    { helena_message_id := "m1", helena_lead_id := "L404",
      content := "oi", direction := "inbound" }
    {} "c" 5 rfl rfl rfl rfl

theorem handle_lead_event_events (p : HelenaWebhookPayload) (now : Int) (db db2 : DB)
    (l : Lead) (h : handle_lead_event p now db = .ok (db2, l)) : db2.events = db.events := by
  simp only [handle_lead_event] at h
  repeat' split at h
  all_goals simp_all [DB.fresh, DB.replaceLead]
  all_goals obtain ⟨h1, h2⟩ := h
  all_goals subst h1
  all_goals rfl

theorem handle_message_event_events (p : HelenaWebhookPayload) (now : Int)
    (db db2 : DB) (l : Option Lead)
    (h : handle_message_event p now db = .ok (db2, l)) : db2.events = db.events := by
  simp only [handle_message_event] at h
  repeat' split at h
  all_goals simp_all [DB.fresh, DB.replaceLead, DB.replaceMessage]
  all_goals obtain ⟨h1, h2⟩ := h
  all_goals subst h1
  all_goals rfl

theorem process_helena_event_ok (p : HelenaWebhookPayload) (corr : String) (now : Int)
    (db db2 : DB) (ev : Event)
    (h : process_helena_event p corr now db = .ok (db2, ev)) :
    db2.events = db.events ++ [ev] ∧ ev.idempotency_key = p.idempotency_key := by
  simp only [process_helena_event] at h
  split at h
  · exact Except.noConfusion h
  · cases hh : (if ["lead_created", "lead_updated", "lead_stage_changed",
          "lead_tag_added"].contains p.event_type then
        (handle_lead_event p now db).map (fun r => (r.1, some r.2))
      else if ["message_received", "message_sent", "message_delivered",
               "message_read"].contains p.event_type then
        handle_message_event p now db
      else
        Except.ok (db, none)) with
    | error e => rw [hh] at h; exact Except.noConfusion h
    | ok r =>
      obtain ⟨db1, lead⟩ := r
      rw [hh] at h
      have hpres : db1.events = db.events := by
        by_cases hc1 : (["lead_created", "lead_updated", "lead_stage_changed",
            "lead_tag_added"].contains p.event_type) = true
        · simp only [hc1, if_true] at hh
          cases hle : handle_lead_event p now db with
          | error e => rw [hle] at hh; exact Except.noConfusion hh
          | ok r2 =>
            obtain ⟨dbA, lA⟩ := r2
            rw [hle] at hh
            simp only [Except.map, Except.ok.injEq, Prod.mk.injEq] at hh
            obtain ⟨h1, h2⟩ := hh
            subst h1
            exact handle_lead_event_events p now db dbA lA hle
        · simp only [Bool.not_eq_true] at hc1
          simp only [hc1, Bool.false_eq_true, if_false] at hh
          by_cases hc2 : (["message_received", "message_sent", "message_delivered",
              "message_read"].contains p.event_type) = true
          · simp only [hc2, if_true] at hh
            exact handle_message_event_events p now db db1 lead hh
          · simp only [Bool.not_eq_true] at hc2
            simp only [hc2, Bool.false_eq_true, if_false, Except.ok.injEq,
              Prod.mk.injEq] at hh
            obtain ⟨h1, h2⟩ := hh
            rw [← h1]
      simp only [DB.fresh, Except.ok.injEq, Prod.mk.injEq] at h
      obtain ⟨h1, h2⟩ := h
      subst h1
      constructor
      · simp only [hpres]
        rw [← h2]
      · rw [← h2]
        cases lead with
        | none =>
          dsimp only
          split <;> simp [Event.add_triggered_action, Event.create_from_webhook]
        | some lsome =>
          dsimp only
          split_ifs <;> simp [Event.add_triggered_action, Event.create_from_webhook]

/-- C1: after a successful Helena ingestion, a second delivery with the same
(supplied or derived) idempotency key finds the existing Event, creates no new
Event and mutates nothing (the state is returned unchanged), and reports
success with the "Event already processed" message carrying the same Event
id. -/
theorem C1_idempotent_crm_ingestion (p q : HelenaWebhookPayload) (c1 c2 : String) (t1 t2 : Int)
    (db db1 : DB) (eid : Nat) (corr : String)
    (hkey : helena_resolved_key q = helena_resolved_key p)
    (h1 : helena_webhook p c1 t1 db = (db1, .success eid corr)) :
    helena_webhook q c2 t2 db1 = (db1, .alreadyProcessed eid) := by
  simp only [helena_webhook] at h1 ⊢
  rw [hkey]
  cases hfind : db.events.find?
      (fun e => e.idempotency_key == some (helena_resolved_key p)) with
  | some e =>
    rw [hfind] at h1
    simp at h1
  | none =>
    rw [hfind] at h1
    cases hproc : process_helena_event
        { p with idempotency_key := some (helena_resolved_key p) } c1 t1 db with
    | error e =>
      rw [hproc] at h1
      simp at h1
    | ok r =>
      obtain ⟨dbA, ev⟩ := r
      rw [hproc] at h1
      simp only [Prod.mk.injEq, HelenaResponse.success.injEq] at h1
      obtain ⟨hdb1, hid, hcorr⟩ := h1
      obtain ⟨hevents, hkey2⟩ := process_helena_event_ok _ c1 t1 db dbA ev hproc
      have hdb1events : db1.events = db.events ++ [ev] := by
        rw [← hdb1]
        simp [enqueue_orchestration_job, DB.enqueue, DB.addLog, hevents]
      have hfind2 : db1.events.find?
          (fun e => e.idempotency_key == some (helena_resolved_key p)) = some ev := by
        rw [hdb1events, List.find?_append, hfind, Option.none_or]
        have hpk : ev.idempotency_key = some (helena_resolved_key p) := hkey2
        rw [List.find?_cons_of_pos]
        rw [hpk]
        exact beq_self_eq_true _
      rw [hfind2]
      dsimp only
      rw [hid]

/-- Witness for C1: delivering the same lead_created payload twice on an empty
database — the second call returns the unchanged state and the first call's
Event id with the already-processed response. -/
theorem C1_idempotent_crm_ingestion_witness :
    helena_webhook
      { event_type := "lead_created", timestamp := 0,
        data := .leadData { helena_id := "h1", first_name := "A", phone := "+55" },
        helena_lead_id := some "h1", idempotency_key := some "k9" } "c2" 7
      (helena_webhook
        { event_type := "lead_created", timestamp := 0,
          data := .leadData { helena_id := "h1", first_name := "A", phone := "+55" },
          helena_lead_id := some "h1", idempotency_key := some "k9" } "c1" 0 {}).1 =
      ((helena_webhook
        { event_type := "lead_created", timestamp := 0,
          data := .leadData { helena_id := "h1", first_name := "A", phone := "+55" },
          helena_lead_id := some "h1", idempotency_key := some "k9" } "c1" 0 {}).1,
       .alreadyProcessed 1) :=
  C1_idempotent_crm_ingestion
    { event_type := "lead_created", timestamp := 0,
      data := .leadData { helena_id := "h1", first_name := "A", phone := "+55" },
      helena_lead_id := some "h1", idempotency_key := some "k9" }
    { event_type := "lead_created", timestamp := 0,
      data := .leadData { helena_id := "h1", first_name := "A", phone := "+55" },
      helena_lead_id := some "h1", idempotency_key := some "k9" }
    "c1" "c2" 0 7 {}
    (helena_webhook
      { event_type := "lead_created", timestamp := 0,
        data := .leadData { helena_id := "h1", first_name := "A", phone := "+55" },
        helena_lead_id := some "h1", idempotency_key := some "k9" } "c1" 0 {}).1
    1 "c1" rfl rfl
